import Mathlib

/-!
# The login component of `Front/src/routes/auth/Login.jsx`

A shallow embedding of the React component `Login`: its validation
functions, its state (the eight `useState` cells), its event handlers and the
continuations of its three HTTP requests.

Conventions of the embedding.

* A JavaScript string is a Lean `String`; the operations that JavaScript
  defines on UTF-16 code units (`length`, regular expressions) go through
  `toUTF16`.
* An `async` handler is split at its `await`: the part that runs when the
  button is clicked (`login`, `manageForgotPassword`, `handleResetPassword`)
  and the continuation that runs when the request settles (`loginSettled`,
  `manageForgotPasswordSettled`, `handleResetPasswordSettled`).
* A handler returns the new component state and the list of calls it made on
  its collaborators (`fetch`, `localStorage.setItem`,
  `window.location.replace`, `toast.success`), in program order.
* `config.json` is not part of the sources: its constants are the fields
  of `Config`.
-/

namespace Login

/-! ## Strings -/

/-- UTF-16 code units of one code point. -/
def utf16Units (c : Char) : List Nat :=
  if c.toNat < 0x10000 then [c.toNat]
  else [0xD800 + (c.toNat - 0x10000) / 0x400, 0xDC00 + (c.toNat - 0x10000) % 0x400]

/-- UTF-16 code units of a string, the elements JavaScript indexes a string by. -/
def toUTF16 (s : String) : List Nat :=
  s.data.flatMap utf16Units

/-- JavaScript `s.length`: the number of UTF-16 code units. -/
def jsLength (s : String) : Nat :=
  (toUTF16 s).length

/-- ECMAScript `WhiteSpace` and `LineTerminator` code units: what `\s` matches
and what `trim` strips. -/
def isWhiteSpaceUnit (u : Nat) : Bool :=
  u == 0x09 || u == 0x0A || u == 0x0B || u == 0x0C || u == 0x0D || u == 0x20 ||
  u == 0xA0 || u == 0x1680 || (0x2000 ≤ u && u ≤ 0x200A) || u == 0x2028 ||
  u == 0x2029 || u == 0x202F || u == 0x205F || u == 0x3000 || u == 0xFEFF

/-- Whitespace test on a code point (all whitespace is in the basic plane). -/
def isWhiteSpace (c : Char) : Bool :=
  isWhiteSpaceUnit c.toNat

/-- JavaScript `s.trim()`. -/
def trim (s : String) : String :=
  ⟨((s.data.dropWhile isWhiteSpace).reverse.dropWhile isWhiteSpace).reverse⟩

/-- Lower-case image of one code point, as far as ASCII is concerned: `A`-`Z`
map to `a`-`z`; U+0130 maps to `i` followed by U+0307 and U+212A (Kelvin sign)
to `k`, the only code points outside ASCII whose lower-case form contains an
ASCII letter. Every other code point outside ASCII stands for its (non-ASCII)
lower-case form, which no ASCII search string can meet. -/
def lowerChar (c : Char) : List Char :=
  if c.toNat = 0x130 then ['i', Char.ofNat 0x307]
  else if c.toNat = 0x212A then ['k']
  else [c.toLower]

/-- JavaScript `s.toLowerCase()`, see `lowerChar`. -/
def toLowerCase (s : String) : String :=
  ⟨s.data.flatMap lowerChar⟩

/-- Whether the first list starts the second. -/
def startsWith : List Char → List Char → Bool
  | [], _ => true
  | _ :: _, [] => false
  | a :: as, b :: bs => a == b && startsWith as bs

/-- Whether `needle` occurs in `hay` as a contiguous run. -/
def includesList (needle : List Char) : List Char → Bool
  | [] => needle.isEmpty
  | c :: cs => startsWith needle (c :: cs) || includesList needle cs

/-- JavaScript `s.includes(needle)`. -/
def includes (s needle : String) : Bool :=
  includesList needle.data s.data

/-! ## Regular expressions

The two regular expressions of the component use character classes,
concatenation, `+` and `{6}`, anchored at both ends. They are embedded as
syntax trees and matched by derivatives over UTF-16 code units (the
expressions carry no `u` flag). -/

/-- Regular expressions over UTF-16 code units. -/
inductive Regex where
  | fail : Regex
  | eps : Regex
  | cls (p : Nat → Bool) : Regex
  | seq (a b : Regex) : Regex
  | alt (a b : Regex) : Regex
  | star (a : Regex) : Regex

namespace Regex

/-- Whether the expression matches the empty string. -/
def nullable : Regex → Bool
  | fail => false
  | eps => true
  | cls _ => false
  | seq a b => nullable a && nullable b
  | alt a b => nullable a || nullable b
  | star _ => true

/-- Derivative of the expression by one code unit. -/
def deriv : Regex → Nat → Regex
  | fail, _ => fail
  | eps, _ => fail
  | cls p, u => if p u then eps else fail
  | seq a b, u =>
      if nullable a then alt (seq (deriv a u) b) (deriv b u) else seq (deriv a u) b
  | alt a b, u => alt (deriv a u) (deriv b u)
  | star a, u => seq (deriv a u) (star a)

/-- Whether the whole input is matched. -/
def matchAll (r : Regex) (us : List Nat) : Bool :=
  nullable (us.foldl deriv r)

/-- Regular expression `a+`. -/
def plus (a : Regex) : Regex :=
  seq a (star a)

/-- Regular expression `a{n}`. -/
def rep : Nat → Regex → Regex
  | 0, _ => eps
  | n + 1, a => seq a (rep n a)

/-- Literal code unit. -/
def lit (c : Char) : Regex :=
  cls (fun u => u == c.toNat)

/-- Denotation of a regular expression: the inputs it matches as a whole. -/
inductive Matches : Regex → List Nat → Prop where
  | eps : Matches eps []
  | cls {p : Nat → Bool} {u : Nat} : p u = true → Matches (cls p) [u]
  | seq {a b : Regex} {xs ys : List Nat} :
      Matches a xs → Matches b ys → Matches (seq a b) (xs ++ ys)
  | altL {a b : Regex} {xs : List Nat} : Matches a xs → Matches (alt a b) xs
  | altR {a b : Regex} {xs : List Nat} : Matches b xs → Matches (alt a b) xs
  | starNil {a : Regex} : Matches (star a) []
  | starCons {a : Regex} {xs ys : List Nat} :
      Matches a xs → Matches (star a) ys → Matches (star a) (xs ++ ys)

end Regex

/-- Method `RegExp.prototype.test` for an expression of the form `/^r$/` (no flags):
the whole string has to match `r`. -/
def testAnchored (r : Regex) (s : String) : Bool :=
  r.matchAll (toUTF16 s)

/-- Character class `[^\s@]`. -/
def notSpaceNorAt : Regex :=
  .cls (fun u => !(isWhiteSpaceUnit u || u == '@'.toNat))

/-- Code units `0` to `9`. -/
def digitUnit (u : Nat) : Bool :=
  '0'.toNat ≤ u && u ≤ '9'.toNat

/-- Character class `\d`. -/
def digit : Regex :=
  .cls digitUnit

/-- The expression `/^[^\s@]+@[^\s@]+\.[^\s@]+$/` between its anchors. -/
def emailRegex : Regex :=
  .seq (.plus notSpaceNorAt) (.seq (.lit '@') (.seq (.plus notSpaceNorAt)
    (.seq (.lit '.') (.plus notSpaceNorAt))))

/-! ## Validation functions -/

/-- Source `validateEmail` (lines 66-69). -/
def validateEmail (email : String) : Bool :=
  testAnchored emailRegex email

/-- Source `validatePassword` (lines 71-73). -/
def validatePassword (password : String) : Bool :=
  decide (jsLength password ≥ 8)

/-- Source `validateResetCode` (lines 75-77): `/^\d{6}$/.test(code)`. -/
def validateResetCode (code : String) : Bool :=
  testAnchored (.rep 6 digit) code

/-! ## Values received from the server -/

/-- A JavaScript value as far as the component inspects one: its truthiness
and whether it is a string. `number n` stands for a JSON number (falsy when
zero), `object` for any JSON object or array (always truthy). -/
inductive JSValue where
  | undefined : JSValue
  | null : JSValue
  | bool (b : Bool) : JSValue
  | number (n : Int) : JSValue
  | string (s : String) : JSValue
  | object : JSValue
  deriving DecidableEq, Repr

/-- JavaScript truthiness (`ToBoolean`). -/
def JSValue.truthy : JSValue → Bool
  | .undefined => false
  | .null => false
  | .bool b => b
  | .number n => n != 0
  | .string s => s != ""
  | .object => true

/-- The value `response.json()` resolves to. `null` is kept apart because
reading a property of it throws a `TypeError`; any other JSON value is seen
through the two properties the component reads, `undefined` when absent. -/
inductive Json where
  | null : Json
  | value (token message : JSValue) : Json
  deriving DecidableEq, Repr

/-- Body of an HTTP response: `response.json()` rejects on `unparsable`. -/
inductive Body where
  | unparsable : Body
  | parsed (json : Json) : Body
  deriving DecidableEq, Repr

/-- Outcome of a `fetch`: the promise rejects (`failed`, a network error) or
resolves to a response with its `ok` flag (status 200-299) and body. -/
inductive Response where
  | failed : Response
  | http (ok : Bool) (body : Body) : Response
  deriving DecidableEq, Repr

/-! ## Component state and collaborators -/

/-- Constants imported from `config.json` (line 8). -/
structure Config where
  BASE_API : String
  API_VERSION : String
  CAPTCHA_ENABLED : Bool
  deriving DecidableEq, Repr

/-- State cell `datas` (line 12). -/
structure Datas where
  email : String
  password : String
  deriving DecidableEq, Repr

/-- State cell `resetData` (lines 16-21). -/
structure ResetData where
  email : String
  resetCode : String
  newPassword : String
  confirmPassword : String
  deriving DecidableEq, Repr

/-- State cell `resetErrors` (line 22): an object whose keys are among
`email`, `resetCode`, `newPassword`, `confirmPassword` and `general`; `none`
is an absent key. -/
structure ResetErrors where
  email : Option String := none
  resetCode : Option String := none
  newPassword : Option String := none
  confirmPassword : Option String := none
  general : Option String := none
  deriving DecidableEq, Repr

/-- Number of keys, `Object.keys(errors).length`. -/
def ResetErrors.keyCount (e : ResetErrors) : Nat :=
  e.email.toList.length + e.resetCode.toList.length + e.newPassword.toList.length +
    e.confirmPassword.toList.length + e.general.toList.length

/-- Body of a request, before `JSON.stringify`. -/
inductive Request where
  | login (email password : String) (turnstileToken : Option String) : Request
  | forgotPassword (email : String) : Request
  | resetPassword (email resetCode newPassword confirmPassword : String) : Request
  deriving DecidableEq, Repr

/-- Calls the component makes on its collaborators. -/
inductive Effect where
  | fetch (url : String) (body : Request) : Effect
  | setItem (key : String) (value : JSValue) : Effect
  | locationReplace (url : String) : Effect
  | toastSuccess (message : String) : Effect
  deriving DecidableEq, Repr

/-- Whether the call is a `fetch`. -/
def Effect.isFetch : Effect → Bool
  | .fetch _ _ => true
  | _ => false

/-- Whether the call is a `localStorage.setItem`. -/
def Effect.isSetItem : Effect → Bool
  | .setItem _ _ => true
  | _ => false

/-- Whether the call is a `window.location.replace`. -/
def Effect.isNavigation : Effect → Bool
  | .locationReplace _ => true
  | _ => false

/-- Number of network calls in a list of effects. -/
def fetchCount (es : List Effect) : Nat :=
  (es.filter Effect.isFetch).length

/-- The eight `useState` cells of the component (lines 12-24). -/
structure State where
  datas : Datas
  error : JSValue
  showResetModal : Bool
  resetStep : Nat
  resetData : ResetData
  resetErrors : ResetErrors
  isLoading : Bool
  turnstileToken : String
  deriving DecidableEq, Repr

/-- The empty `resetData` object of lines 16-21, 170 and 191. -/
def emptyResetData : ResetData :=
  { email := "", resetCode := "", newPassword := "", confirmPassword := "" }

/-- Initial values of the state cells (lines 12-24). -/
def initialState : State :=
  { datas := { email := "", password := "" }
    error := .string ""
    showResetModal := false
    resetStep := 1
    resetData := emptyResetData
    resetErrors := {}
    isLoading := false
    turnstileToken := "" }

/-- Endpoint URL, the template literal of lines 47, 94 and 151. -/
def endpoint (cfg : Config) (path : String) : String :=
  cfg.BASE_API ++ "/v" ++ cfg.API_VERSION ++ path

/-! ## Login (lines 40-64) -/

/-- Source `login`, up to the `fetch` call (lines 40-53). -/
def login (cfg : Config) (s : State) : State × List Effect :=
  if s.datas.email = "" then
    ({ s with error := .string "Email is required." }, [])
  else if s.datas.password = "" then
    ({ s with error := .string "Password is required." }, [])
  else if cfg.CAPTCHA_ENABLED && s.turnstileToken = "" then
    ({ s with error := .string "Please complete the CAPTCHA verification." }, [])
  else
    ({ s with error := .string "" },
      [.fetch (endpoint cfg "/auth/login")
        (.login s.datas.email s.datas.password
          (if cfg.CAPTCHA_ENABLED then some s.turnstileToken else none))])

/-- The `.catch` callback of line 63. -/
def loginCatch (s : State) : State × List Effect :=
  ({ s with error := .string "An error occurred." }, [])

/-- The promise chain of lines 54-63, run when the login request settles. -/
def loginSettled (resp : Response) (s : State) : State × List Effect :=
  match resp with
  | .failed => loginCatch s
  | .http _ .unparsable => loginCatch s
  | .http _ (.parsed .null) => loginCatch s
  | .http _ (.parsed (.value token message)) =>
    if token.truthy then
      (s, [.setItem "token" token, .locationReplace "/dash/dashboard"])
    else
      ({ s with error := if message.truthy then message else .string "An error occurred." }, [])

/-- One click on Login followed, when a request was issued, by its outcome. -/
def loginRun (cfg : Config) (s : State) (resp : Response) : State × List Effect :=
  let r := login cfg s
  if fetchCount r.2 = 0 then r
  else ((loginSettled resp r.1).1, r.2 ++ (loginSettled resp r.1).2)

/-! ## Forgot password (lines 79-120) -/

/-- Source `manageForgotPassword`, up to the `await fetch` (lines 79-100). -/
def manageForgotPassword (cfg : Config) (s : State) : State × List Effect :=
  if trim s.resetData.email = "" then
    ({ s with resetErrors := { email := some "Email is required." } }, [])
  else if !validateEmail s.resetData.email then
    ({ s with resetErrors := { email := some "Please enter a valid email address." } }, [])
  else
    ({ s with resetErrors := {}, isLoading := true },
      [.fetch (endpoint cfg "/auth/forgot-password") (.forgotPassword s.resetData.email)])

/-- The `else` branch of lines 108-114: the new `resetErrors`, or an exception
(`json` is `null`, or `message` is truthy and has no `toLowerCase`). -/
def forgotPasswordFailure : Json → Except Unit ResetErrors
  | .null => .error ()
  | .value _ (.string m) =>
    if m ≠ "" ∧ includes (toLowerCase m) "not found" then
      .ok { email := some "No account found with this email address." }
    else
      .ok { general := some (if m ≠ "" then m else "An error occurred.") }
  | .value _ message =>
    if message.truthy then .error ()
    else .ok { general := some "An error occurred." }

/-- The `try` block of lines 93-114 after the request settled: the state and
effects when it completes, or an exception. -/
def manageForgotPasswordTry (resp : Response) (s : State) : Except Unit (State × List Effect) :=
  match resp with
  | .failed => .error ()
  | .http _ .unparsable => .error ()
  | .http ok (.parsed json) =>
    if ok then
      .ok ({ s with resetStep := 2, resetErrors := {} },
        [.toastSuccess "Reset code sent to your email!"])
    else
      match forgotPasswordFailure json with
      | .ok errors => .ok ({ s with resetErrors := errors }, [])
      | .error e => .error e

/-- Lines 102-119, run when the forgot-password request settles: `try`,
`catch` and `finally`. -/
def manageForgotPasswordSettled (resp : Response) (s : State) : State × List Effect :=
  let r : State × List Effect :=
    match manageForgotPasswordTry resp s with
    | .ok r => r
    | .error _ =>
      ({ s with resetErrors := { general := some "Connection error. Please try again." } }, [])
  ({ r.1 with isLoading := false }, r.2)

/-- One click on Send Reset Code followed, when a request was issued, by its
outcome. -/
def manageForgotPasswordRun (cfg : Config) (s : State) (resp : Response) : State × List Effect :=
  let r := manageForgotPassword cfg s
  if fetchCount r.2 = 0 then r
  else ((manageForgotPasswordSettled resp r.1).1, r.2 ++ (manageForgotPasswordSettled resp r.1).2)

/-! ## Reset password (lines 122-186) -/

/-- The object `errors` built by lines 124-142. -/
def resetPasswordErrors (d : ResetData) : ResetErrors :=
  { resetCode :=
      if trim d.resetCode = "" then some "Reset code is required."
      else if !validateResetCode d.resetCode then some "The code must contain exactly 6 digits."
      else none
    newPassword :=
      if d.newPassword = "" then some "The new password is required."
      else if !validatePassword d.newPassword then
        some "The password must contain at least 8 characters."
      else none
    confirmPassword :=
      if d.confirmPassword = "" then some "Password confirmation is required."
      else if d.newPassword ≠ d.confirmPassword then some "The passwords do not match."
      else none }

/-- Source `handleResetPassword`, up to the `await fetch` (lines 122-162). -/
def handleResetPassword (cfg : Config) (s : State) : State × List Effect :=
  let errors := resetPasswordErrors s.resetData
  if errors.keyCount > 0 then
    ({ s with resetErrors := errors }, [])
  else
    ({ s with resetErrors := {}, isLoading := true },
      [.fetch (endpoint cfg "/auth/reset-password")
        (.resetPassword s.resetData.email s.resetData.resetCode s.resetData.newPassword
          s.resetData.confirmPassword)])

/-- The `else` branch of lines 172-180: the new `resetErrors`, or an exception
(`json` is `null`, or `message` is truthy and has no `toLowerCase`). -/
def resetPasswordFailure : Json → Except Unit ResetErrors
  | .null => .error ()
  | .value _ (.string m) =>
    if m ≠ "" ∧ includes (toLowerCase m) "invalid" ∧ includes (toLowerCase m) "code" then
      .ok { resetCode := some "Invalid or expired reset code." }
    else if m ≠ "" ∧ includes (toLowerCase m) "expired" then
      .ok { resetCode := some "The reset code has expired. Request a new code." }
    else
      .ok { general := some (if m ≠ "" then m else "An error occurred.") }
  | .value _ message =>
    if message.truthy then .error ()
    else .ok { general := some "An error occurred." }

/-- The `try` block of lines 150-180 after the request settled. -/
def handleResetPasswordTry (resp : Response) (s : State) : Except Unit (State × List Effect) :=
  match resp with
  | .failed => .error ()
  | .http _ .unparsable => .error ()
  | .http ok (.parsed json) =>
    if ok then
      .ok ({ s with showResetModal := false, resetStep := 1, resetData := emptyResetData,
                    resetErrors := {} },
        [.toastSuccess "Password reset successfully!"])
    else
      match resetPasswordFailure json with
      | .ok errors => .ok ({ s with resetErrors := errors }, [])
      | .error e => .error e

/-- Lines 164-185, run when the reset-password request settles: `try`, `catch`
and `finally`. -/
def handleResetPasswordSettled (resp : Response) (s : State) : State × List Effect :=
  let r : State × List Effect :=
    match handleResetPasswordTry resp s with
    | .ok r => r
    | .error _ =>
      ({ s with resetErrors := { general := some "Connection error. Please try again." } }, [])
  ({ r.1 with isLoading := false }, r.2)

/-- One click on Reset Password followed, when a request was issued, by its
outcome. -/
def handleResetPasswordRun (cfg : Config) (s : State) (resp : Response) : State × List Effect :=
  let r := handleResetPassword cfg s
  if fetchCount r.2 = 0 then r
  else ((handleResetPasswordSettled resp r.1).1, r.2 ++ (handleResetPasswordSettled resp r.1).2)

/-- Source `closeResetModal` (lines 188-193). -/
def closeResetModal (s : State) : State :=
  { s with showResetModal := false, resetStep := 1, resetData := emptyResetData,
           resetErrors := {} }

/-! ## Form and modal controls (lines 237-457) -/

/-- Whether a `resetErrors` entry is truthy: present and not the empty string. -/
def truthyEntry : Option String → Bool
  | some m => m != ""
  | none => false

/-- ASCII digit, the class `\d`. -/
def isAsciiDigit (c : Char) : Bool :=
  '0'.toNat ≤ c.toNat && c.toNat ≤ '9'.toNat

/-- The `onChange` of the login email input (line 244). -/
def changeEmail (v : String) (s : State) : State :=
  { s with datas := { s.datas with email := v } }

/-- The `onChange` of the login password input (line 253). -/
def changePassword (v : String) (s : State) : State :=
  { s with datas := { s.datas with password := v } }

/-- The CAPTCHA success callback (line 262). -/
def captchaCallback (token : String) (s : State) : State :=
  { s with turnstileToken := token }

/-- The CAPTCHA expiry and error callbacks (lines 263-264). -/
def captchaCleared (s : State) : State :=
  { s with turnstileToken := "" }

/-- The `onClick` of "Forgot your password?" (line 281). -/
def openResetModal (s : State) : State :=
  { s with showResetModal := true }

/-- The `onChange` of the reset email input (lines 342-347). -/
def changeResetEmail (v : String) (s : State) : State :=
  { s with
    resetData := { s.resetData with email := v }
    resetErrors :=
      if truthyEntry s.resetErrors.email then { s.resetErrors with email := some "" }
      else s.resetErrors }

/-- The `onChange` of the reset code input (lines 382-388); the value typed
loses every non-digit (`replace(/\D/g, '')`). -/
def changeResetCode (v : String) (s : State) : State :=
  { s with
    resetData := { s.resetData with resetCode := ⟨v.data.filter isAsciiDigit⟩ }
    resetErrors :=
      if truthyEntry s.resetErrors.resetCode then { s.resetErrors with resetCode := some "" }
      else s.resetErrors }

/-- The `onChange` of the new password input (lines 404-409). -/
def changeNewPassword (v : String) (s : State) : State :=
  { s with
    resetData := { s.resetData with newPassword := v }
    resetErrors :=
      if truthyEntry s.resetErrors.newPassword then { s.resetErrors with newPassword := some "" }
      else s.resetErrors }

/-- The `onChange` of the password confirmation input (lines 424-429). -/
def changeConfirmPassword (v : String) (s : State) : State :=
  { s with
    resetData := { s.resetData with confirmPassword := v }
    resetErrors :=
      if truthyEntry s.resetErrors.confirmPassword then
        { s.resetErrors with confirmPassword := some "" }
      else s.resetErrors }

/-- The `onClick` of Back (lines 441-444). -/
def clickBack (s : State) : State :=
  { s with resetStep := 1, resetErrors := {} }

/-! ## The component as a transition system

The component state together with the requests in flight. An event is a user
action on a control that is rendered and enabled, a CAPTCHA callback, or the
settlement of a request in flight. -/

/-- Component state and the bodies of the requests not yet settled. -/
structure Sys where
  state : State
  pending : List Request
  deriving DecidableEq, Repr

/-- The component as mounted. -/
def initialSys : Sys :=
  { state := initialState, pending := [] }

/-- Events of the component. -/
inductive Event where
  | changeEmail (v : String) : Event
  | changePassword (v : String) : Event
  | captchaCallback (token : String) : Event
  | captchaExpired : Event
  | captchaError : Event
  | clickLogin : Event
  | clickForgot : Event
  | clickClose : Event
  | changeResetEmail (v : String) : Event
  | changeResetCode (v : String) : Event
  | changeNewPassword (v : String) : Event
  | changeConfirmPassword (v : String) : Event
  | clickBack : Event
  | clickSendResetCode : Event
  | clickResetPassword : Event
  | settle (i : Nat) (resp : Response) : Event
  deriving DecidableEq, Repr

/-- Bodies of the requests issued by a list of effects. -/
def issued : List Effect → List Request
  | [] => []
  | .fetch _ body :: es => body :: issued es
  | _ :: es => issued es

/-- A handler run on the system: its requests join the ones in flight. -/
def Sys.handle (sys : Sys) (r : State × List Effect) : Sys :=
  { state := r.1, pending := sys.pending ++ issued r.2 }

/-- The continuation that a settled request runs. -/
def settled (req : Request) (resp : Response) (s : State) : State × List Effect :=
  match req with
  | .login _ _ _ => loginSettled resp s
  | .forgotPassword _ => manageForgotPasswordSettled resp s
  | .resetPassword _ _ _ _ => handleResetPasswordSettled resp s

/-- One event; `none` when the control is not rendered (lines 257, 306, 325),
is disabled (lines 359, 452), or no such request is in flight. -/
def step (cfg : Config) (sys : Sys) : Event → Option Sys
  | .changeEmail v => some { sys with state := changeEmail v sys.state }
  | .changePassword v => some { sys with state := changePassword v sys.state }
  | .captchaCallback token =>
    if cfg.CAPTCHA_ENABLED then some { sys with state := captchaCallback token sys.state }
    else none
  | .captchaExpired =>
    if cfg.CAPTCHA_ENABLED then some { sys with state := captchaCleared sys.state } else none
  | .captchaError =>
    if cfg.CAPTCHA_ENABLED then some { sys with state := captchaCleared sys.state } else none
  | .clickLogin => some (sys.handle (login cfg sys.state))
  | .clickForgot => some { sys with state := openResetModal sys.state }
  | .clickClose =>
    if sys.state.showResetModal then some { sys with state := closeResetModal sys.state }
    else none
  | .changeResetEmail v =>
    if sys.state.showResetModal ∧ sys.state.resetStep = 1 then
      some { sys with state := changeResetEmail v sys.state }
    else none
  | .changeResetCode v =>
    if sys.state.showResetModal ∧ sys.state.resetStep ≠ 1 then
      some { sys with state := changeResetCode v sys.state }
    else none
  | .changeNewPassword v =>
    if sys.state.showResetModal ∧ sys.state.resetStep ≠ 1 then
      some { sys with state := changeNewPassword v sys.state }
    else none
  | .changeConfirmPassword v =>
    if sys.state.showResetModal ∧ sys.state.resetStep ≠ 1 then
      some { sys with state := changeConfirmPassword v sys.state }
    else none
  | .clickBack =>
    if sys.state.showResetModal ∧ sys.state.resetStep ≠ 1 then
      some { sys with state := clickBack sys.state }
    else none
  | .clickSendResetCode =>
    if sys.state.showResetModal ∧ sys.state.resetStep = 1 ∧ sys.state.isLoading = false then
      some (sys.handle (manageForgotPassword cfg sys.state))
    else none
  | .clickResetPassword =>
    if sys.state.showResetModal ∧ sys.state.resetStep ≠ 1 ∧ sys.state.isLoading = false then
      some (sys.handle (handleResetPassword cfg sys.state))
    else none
  | .settle i resp =>
    match sys.pending.get? i with
    | none => none
    | some req =>
      some (Sys.handle { sys with pending := sys.pending.eraseIdx i }
        (settled req resp sys.state))

/-- A sequence of events, from left to right. -/
def run (cfg : Config) : Sys → List Event → Option Sys
  | sys, [] => some sys
  | sys, ev :: evs =>
    match step cfg sys ev with
    | none => none
    | some next => run cfg next evs

/-- States the component can be in after some sequence of events. -/
def Reachable (cfg : Config) (sys : Sys) : Prop :=
  ∃ evs, run cfg initialSys evs = some sys

/-! ## Vocabulary of the specification -/

/-- The string consists of exactly six ASCII digits. -/
def SixDigits (code : String) : Prop :=
  code.data.length = 6 ∧ ∀ c ∈ code.data, isAsciiDigit c = true

/-- The string is empty once trimmed. -/
def Blank (s : String) : Prop :=
  trim s = ""

/-- Preconditions of a login submission (lines 41-43). -/
def LoginReady (cfg : Config) (s : State) : Prop :=
  s.datas.email ≠ "" ∧ s.datas.password ≠ "" ∧
    (cfg.CAPTCHA_ENABLED = false ∨ s.turnstileToken ≠ "")

/-- The reset email passes the checks of lines 82-90. -/
def ForgotReady (s : State) : Prop :=
  ¬ Blank s.resetData.email ∧ validateEmail s.resetData.email = true

/-- The reset form passes the checks of lines 126-147. -/
def ResetReady (d : ResetData) : Prop :=
  SixDigits d.resetCode ∧ jsLength d.newPassword ≥ 8 ∧ d.confirmPassword = d.newPassword

instance (cfg : Config) (s : State) : Decidable (LoginReady cfg s) := by
  unfold LoginReady; infer_instance

instance (s : String) : Decidable (Blank s) := by
  unfold Blank; infer_instance

instance (s : State) : Decidable (ForgotReady s) := by
  unfold ForgotReady; infer_instance

instance (code : String) : Decidable (SixDigits code) := by
  unfold SixDigits; infer_instance

instance (d : ResetData) : Decidable (ResetReady d) := by
  unfold ResetReady; infer_instance

/-- What one event can do to the reset step and to the requests in flight. -/
def StepFacts (sys : Sys) (ev : Event) (next : Sys) : Prop :=
  (next.state.resetStep = sys.state.resetStep ∨ next.state.resetStep = 1 ∨
    (next.state.resetStep = 2 ∧ ∃ i json email,
      ev = .settle i (.http true (.parsed json)) ∧
        sys.pending.get? i = some (.forgotPassword email))) ∧
  ∀ r ∈ next.pending, r ∈ sys.pending ∨ (∃ a b c, r = .login a b c) ∨
    (∃ a b c d, r = .resetPassword a b c d) ∨
    (r = .forgotPassword sys.state.resetData.email ∧ ForgotReady sys.state)

/-- Invariant of the runs: the step is 1 or 2 and every forgot-password
request in flight carries an email that passed validation. -/
def Inv (sys : Sys) : Prop :=
  (sys.state.resetStep = 1 ∨ sys.state.resetStep = 2) ∧
  ∀ email, .forgotPassword email ∈ sys.pending → ¬ Blank email ∧ validateEmail email = true

/-- The reset flow as a reopened modal should show it: step 1, the four fields
empty, no error. -/
def ResetFlowClean (s : State) : Prop :=
  s.resetStep = 1 ∧ s.resetData = emptyResetData ∧ s.resetErrors = {}

instance (s : State) : Decidable (ResetFlowClean s) := by
  unfold ResetFlowClean; infer_instance

/-- Whether the event settles a forgot-password or reset-password request
while the modal is closed. -/
def settlesWhileClosed (sys : Sys) : Event → Bool
  | .settle i _ =>
    !sys.state.showResetModal &&
      (match sys.pending.get? i with
        | some (.forgotPassword _) => true
        | some (.resetPassword _ _ _ _) => true
        | _ => false)
  | _ => false

/-- Whether no event of the run settles a forgot-password or reset-password
request while the modal is closed. -/
def quiet (cfg : Config) : Sys → List Event → Bool
  | _, [] => true
  | sys, ev :: evs =>
    !settlesWhileClosed sys ev &&
      (match step cfg sys ev with
        | none => true
        | some next => quiet cfg next evs)

/-- What one event can do to the part of the state that the modal shows. -/
def ViewFacts (sys : Sys) (ev : Event) (next : Sys) : Prop :=
  next.state.showResetModal = true ∨
  (next.state.showResetModal = false ∧ ResetFlowClean next.state) ∨
  (next.state.showResetModal = sys.state.showResetModal ∧
    next.state.resetStep = sys.state.resetStep ∧
    next.state.resetData = sys.state.resetData ∧
    next.state.resetErrors = sys.state.resetErrors) ∨
  (settlesWhileClosed sys ev = true ∧
    next.state.showResetModal = sys.state.showResetModal ∧
    next.state.resetData = sys.state.resetData)

/-- The `local@domain.tld` shape in the words of the specification: no
whitespace character, exactly one `@`, at least one character before it, and
after it a `.` that is neither the first nor the last character. -/
def EmailShape (s : String) : Prop :=
  (∀ c ∈ s.data, isWhiteSpace c = false) ∧ s.data.count '@' = 1 ∧
  ∃ name domain, s.data = name ++ '@' :: domain ∧ name ≠ [] ∧
    ∃ pre post, domain = pre ++ '.' :: post ∧ pre ≠ [] ∧ post ≠ []

/-! ## Sample inputs -/

/-- A configuration with the CAPTCHA disabled. -/
def sampleConfig : Config :=
  { BASE_API := "https://api.example.com", API_VERSION := "1", CAPTCHA_ENABLED := false }

/-- The login form filled in. -/
def sampleLoginState : State :=
  changePassword "hunter22" (changeEmail "user@test.com" initialState)

/-- The reset modal at step 1 with an email typed. -/
def sampleForgotState : State :=
  changeResetEmail "missing@x.com" (openResetModal initialState)

/-- The reset modal at step 2 with the three fields filled in. -/
def sampleResetState : State :=
  { sampleForgotState with
    resetStep := 2
    resetData :=
      { email := "missing@x.com", resetCode := "000000", newPassword := "s3cretpass",
        confirmPassword := "s3cretpass" } }

/-- A run that opens the modal, types an email, asks for a reset code and
receives an HTTP-OK answer. -/
def sampleForgotRun : List Event :=
  [.clickForgot, .changeResetEmail "missing@x.com", .clickSendResetCode,
   .settle 0 (.http true (.parsed (.value .undefined (.string "Reset code sent"))))]

/-- A login response that rejects the credentials. -/
def sampleRejection : Response :=
  .http false (.parsed (.value .undefined (.string "Invalid credentials")))

/-- A run in which the modal is closed while the forgot-password request is in
flight, and the HTTP-OK answer arrives afterwards. -/
def sampleLateRun : List Event :=
  [.clickForgot, .changeResetEmail "missing@x.com", .clickSendResetCode, .clickClose,
   .settle 0 (.http true (.parsed (.value .undefined (.string "Reset code sent"))))]

/-- A run in which the answer arrives while the modal is open, the code is
typed and the modal is then closed. -/
def sampleQuietRun : List Event :=
  [.clickForgot, .changeResetEmail "missing@x.com", .clickSendResetCode,
   .settle 0 (.http true (.parsed (.value .undefined (.string "Reset code sent")))),
   .changeResetCode "123456", .clickClose]

/-! ## The derivative matcher decides the denotation -/

namespace Regex

theorem matches_fail_iff (zs : List Nat) : Matches fail zs ↔ False := by
  constructor
  · intro h; cases h
  · intro h; exact h.elim

theorem matches_eps_iff (zs : List Nat) : Matches eps zs ↔ zs = [] := by
  constructor
  · intro h; cases h; rfl
  · rintro rfl; exact Matches.eps

theorem matches_cls_iff (p : Nat → Bool) (zs : List Nat) :
    Matches (cls p) zs ↔ ∃ u, zs = [u] ∧ p u = true := by
  constructor
  · intro h; cases h with
    | cls hp => exact ⟨_, rfl, hp⟩
  · rintro ⟨u, rfl, hp⟩; exact Matches.cls hp

theorem matches_seq_iff (a b : Regex) (zs : List Nat) :
    Matches (seq a b) zs ↔ ∃ xs ys, zs = xs ++ ys ∧ Matches a xs ∧ Matches b ys := by
  constructor
  · intro h; cases h with
    | seq ha hb => exact ⟨_, _, rfl, ha, hb⟩
  · rintro ⟨xs, ys, rfl, ha, hb⟩; exact Matches.seq ha hb

theorem matches_alt_iff (a b : Regex) (zs : List Nat) :
    Matches (alt a b) zs ↔ Matches a zs ∨ Matches b zs := by
  constructor
  · intro h; cases h with
    | altL ha => exact Or.inl ha
    | altR hb => exact Or.inr hb
  · rintro (ha | hb)
    · exact Matches.altL ha
    · exact Matches.altR hb

/-- A non-empty match of `a*` starts with a non-empty match of `a`. -/
theorem matches_star_cons (a : Regex) (u : Nat) (us : List Nat) :
    Matches (star a) (u :: us) ↔
      ∃ xs ys, us = xs ++ ys ∧ Matches a (u :: xs) ∧ Matches (star a) ys := by
  constructor
  · intro h
    generalize hr : star a = r at h
    generalize hz : u :: us = zs at h
    induction h generalizing us with
    | eps => cases hr
    | cls _ => cases hr
    | seq _ _ => cases hr
    | altL _ => cases hr
    | altR _ => cases hr
    | starNil => cases hz
    | @starCons a0 xs ys ha hs _ ih =>
      cases hr
      cases xs with
      | nil => exact ih us rfl hz
      | cons x xs =>
        simp only [List.cons_append, List.cons.injEq] at hz
        obtain ⟨rfl, rfl⟩ := hz
        exact ⟨xs, ys, rfl, ha, hs⟩
  · rintro ⟨xs, ys, rfl, ha, hs⟩
    exact Matches.starCons ha hs

theorem nullable_iff (r : Regex) : nullable r = true ↔ Matches r [] := by
  induction r with
  | fail => simp [nullable, matches_fail_iff]
  | eps => simp [nullable, matches_eps_iff]
  | cls p => simp [nullable, matches_cls_iff]
  | seq a b iha ihb =>
    simp only [nullable, Bool.and_eq_true, iha, ihb, matches_seq_iff]
    constructor
    · rintro ⟨ha, hb⟩; exact ⟨[], [], rfl, ha, hb⟩
    · rintro ⟨xs, ys, h, ha, hb⟩
      obtain ⟨rfl, rfl⟩ := List.append_eq_nil.mp h.symm
      exact ⟨ha, hb⟩
  | alt a b iha ihb => simp [nullable, matches_alt_iff, iha, ihb]
  | star a _ => simp [nullable, Matches.starNil]

theorem deriv_iff (r : Regex) (u : Nat) (us : List Nat) :
    Matches (deriv r u) us ↔ Matches r (u :: us) := by
  induction r generalizing us with
  | fail => simp [deriv, matches_fail_iff]
  | eps => simp [deriv, matches_fail_iff, matches_eps_iff]
  | cls p =>
    by_cases hp : p u = true
    · simp only [deriv, hp, if_true, matches_eps_iff, matches_cls_iff]
      constructor
      · rintro rfl; exact ⟨u, rfl, hp⟩
      · rintro ⟨v, h, _⟩; simpa using (List.cons.inj h).2
    · simp only [deriv, hp, Bool.false_eq_true, if_false, matches_fail_iff, matches_cls_iff,
        false_iff]
      rintro ⟨v, h, hv⟩
      obtain ⟨rfl, -⟩ := List.cons.inj h
      exact hp hv
  | seq a b iha ihb =>
    have key : Matches (seq a b) (u :: us) ↔
        (∃ xs ys, us = xs ++ ys ∧ Matches a (u :: xs) ∧ Matches b ys) ∨
          (Matches a [] ∧ Matches b (u :: us)) := by
      rw [matches_seq_iff]
      constructor
      · rintro ⟨xs, ys, h, ha, hb⟩
        cases xs with
        | nil => right; simp at h; subst h; exact ⟨ha, hb⟩
        | cons x xs =>
          left
          simp only [List.cons_append, List.cons.injEq] at h
          obtain ⟨rfl, rfl⟩ := h
          exact ⟨xs, ys, rfl, ha, hb⟩
      · rintro (⟨xs, ys, rfl, ha, hb⟩ | ⟨ha, hb⟩)
        · exact ⟨u :: xs, ys, rfl, ha, hb⟩
        · exact ⟨[], u :: us, rfl, ha, hb⟩
    rw [key]
    by_cases hn : nullable a = true
    · simp only [deriv, hn, if_true, matches_alt_iff, matches_seq_iff, iha, ihb]
      simp [← nullable_iff, hn]
    · simp only [deriv, hn, Bool.false_eq_true, if_false, matches_seq_iff, iha]
      simp [← nullable_iff, hn]
  | alt a b iha ihb => simp [deriv, matches_alt_iff, iha, ihb]
  | star a iha =>
    simp only [deriv, matches_seq_iff, iha, matches_star_cons]

/-- The derivative matcher decides the denotation. -/
theorem matchAll_iff (r : Regex) (us : List Nat) : matchAll r us = true ↔ Matches r us := by
  induction us generalizing r with
  | nil => simpa [matchAll] using nullable_iff r
  | cons u us ih =>
    have := ih (deriv r u)
    simp only [matchAll, List.foldl_cons] at this ⊢
    rw [this, deriv_iff]

theorem matches_rep_cls (p : Nat → Bool) (n : Nat) (us : List Nat) :
    Matches (rep n (cls p)) us ↔ us.length = n ∧ ∀ u ∈ us, p u = true := by
  induction n generalizing us with
  | zero =>
    simp only [rep, matches_eps_iff]
    constructor
    · rintro rfl; simp
    · rintro ⟨h, -⟩; exact List.length_eq_zero.mp h
  | succ n ih =>
    simp only [rep, matches_seq_iff, matches_cls_iff, ih]
    constructor
    · rintro ⟨xs, ys, rfl, ⟨u, rfl, hu⟩, hlen, hall⟩
      refine ⟨by simp [hlen, Nat.add_comm], ?_⟩
      intro v hv
      simp only [List.singleton_append, List.mem_cons] at hv
      rcases hv with rfl | hv
      · exact hu
      · exact hall v hv
    · rintro ⟨hlen, hall⟩
      cases us with
      | nil => simp at hlen
      | cons u us =>
        refine ⟨[u], us, rfl, ⟨u, rfl, hall u (by simp)⟩, by simpa using hlen, ?_⟩
        intro v hv
        exact hall v (by simp [hv])

end Regex

/-! ## Validation functions -/

theorem utf16Units_digit (c : Char) :
    (∀ u ∈ utf16Units c, (digitUnit u) = true) ↔ isAsciiDigit c = true := by
  unfold utf16Units digitUnit isAsciiDigit
  by_cases h : c.toNat < 0x10000
  · simp [h]
  · simp only [h, if_false, List.mem_cons, List.mem_singleton, forall_eq_or_imp, forall_eq,
      List.not_mem_nil, false_imp_iff, implies_true, and_true, Bool.and_eq_true, decide_eq_true_eq]
    have h9 : ('9'.toNat) = 57 := by decide
    have h0 : ('0'.toNat) = 48 := by decide
    rw [h9, h0]
    constructor
    · rintro ⟨⟨-, h1⟩, -⟩; omega
    · rintro ⟨-, h1⟩; omega

theorem utf16Units_of_digit (c : Char) (h : isAsciiDigit c = true) :
    utf16Units c = [c.toNat] := by
  unfold isAsciiDigit at h
  have h9 : ('9'.toNat) = 57 := by decide
  simp only [Bool.and_eq_true, decide_eq_true_eq, h9] at h
  unfold utf16Units
  rw [if_pos (by omega)]

theorem flatMap_units_digit (cs : List Char) :
    (∀ u ∈ cs.flatMap utf16Units, digitUnit u = true) ↔ ∀ c ∈ cs, isAsciiDigit c = true := by
  induction cs with
  | nil => simp
  | cons c cs ih =>
    simp only [List.flatMap_cons, List.mem_append, List.mem_cons, forall_eq_or_imp]
    rw [← ih, ← utf16Units_digit]
    constructor
    · intro h; exact ⟨fun u hu => h u (Or.inl hu), fun u hu => h u (Or.inr hu)⟩
    · rintro ⟨h1, h2⟩ u (hu | hu)
      · exact h1 u hu
      · exact h2 u hu

theorem flatMap_units_length (cs : List Char) (h : ∀ c ∈ cs, isAsciiDigit c = true) :
    (cs.flatMap utf16Units).length = cs.length := by
  induction cs with
  | nil => rfl
  | cons c cs ih =>
    simp only [List.flatMap_cons, List.length_append, List.length_cons]
    rw [utf16Units_of_digit c (h c (by simp)), ih (fun d hd => h d (by simp [hd]))]
    simp [Nat.add_comm]

/-- Function `validateResetCode` accepts exactly the strings of six ASCII digits. -/
theorem validateResetCode_iff (code : String) :
    validateResetCode code = true ↔ SixDigits code := by
  unfold validateResetCode testAnchored SixDigits digit toUTF16
  rw [Regex.matchAll_iff, Regex.matches_rep_cls]
  change (_ ∧ ∀ u ∈ _, digitUnit u = true) ↔ _
  rw [flatMap_units_digit]
  constructor
  · rintro ⟨hlen, hall⟩
    exact ⟨by rw [← flatMap_units_length _ hall]; exact hlen, hall⟩
  · rintro ⟨hlen, hall⟩
    exact ⟨by rw [flatMap_units_length _ hall]; exact hlen, hall⟩

/-! ## Login -/

theorem login_of_ready (cfg : Config) (s : State) (h : LoginReady cfg s) :
    login cfg s =
      ({ s with error := .string "" },
        [.fetch (endpoint cfg "/auth/login")
          (.login s.datas.email s.datas.password
            (if cfg.CAPTCHA_ENABLED then some s.turnstileToken else none))]) := by
  obtain ⟨h1, h2, h3⟩ := h
  unfold login
  rw [if_neg h1, if_neg h2, if_neg]
  rcases h3 with h3 | h3
  · simp [h3]
  · simp [h3]

/-- C1: `login` issues a network call (exactly one, to the login endpoint) if
and only if the email is non-empty, the password is non-empty and the CAPTCHA is
disabled or its token non-empty. Otherwise it issues no call and changes the
state only by setting the error of the first failing precondition, in the order
email, password, CAPTCHA; with email "user@test.com" and an empty password the
error is 'Password is required.' and nothing is fetched. -/
theorem login_preconditions (cfg : Config) (s : State) :
    (fetchCount (login cfg s).2 ≠ 0 ↔ LoginReady cfg s) ∧
    (LoginReady cfg s → fetchCount (login cfg s).2 = 1) ∧
    (s.datas.email = "" →
      login cfg s = ({ s with error := .string "Email is required." }, [])) ∧
    (s.datas.email ≠ "" → s.datas.password = "" →
      login cfg s = ({ s with error := .string "Password is required." }, [])) ∧
    (s.datas.email ≠ "" → s.datas.password ≠ "" →
      cfg.CAPTCHA_ENABLED = true → s.turnstileToken = "" →
      login cfg s =
        ({ s with error := .string "Please complete the CAPTCHA verification." }, [])) ∧
    login cfg (changeEmail "user@test.com" initialState) =
      ({ changeEmail "user@test.com" initialState with
          error := .string "Password is required." }, []) := by
  have e1 : s.datas.email = "" →
      login cfg s = ({ s with error := .string "Email is required." }, []) := by
    intro h; unfold login; rw [if_pos h]
  have e2 : s.datas.email ≠ "" → s.datas.password = "" →
      login cfg s = ({ s with error := .string "Password is required." }, []) := by
    intro h1 h2; unfold login; rw [if_neg h1, if_pos h2]
  have e3 : s.datas.email ≠ "" → s.datas.password ≠ "" →
      cfg.CAPTCHA_ENABLED = true → s.turnstileToken = "" →
      login cfg s =
        ({ s with error := .string "Please complete the CAPTCHA verification." }, []) := by
    intro h1 h2 h3 h4; unfold login; rw [if_neg h1, if_neg h2, if_pos (by simp [h3, h4])]
  have ok : LoginReady cfg s → fetchCount (login cfg s).2 = 1 := by
    intro h; rw [login_of_ready cfg s h]; rfl
  refine ⟨⟨?_, fun h => by rw [ok h]; decide⟩, ok, e1, e2, e3, ?_⟩
  · intro h
    by_contra hn
    apply h
    unfold LoginReady at hn
    by_cases h1 : s.datas.email = ""
    · rw [e1 h1]; rfl
    by_cases h2 : s.datas.password = ""
    · rw [e2 h1 h2]; rfl
    by_cases h3 : cfg.CAPTCHA_ENABLED = true
    · by_cases h4 : s.turnstileToken = ""
      · rw [e3 h1 h2 h3 h4]; rfl
      · exact absurd ⟨h1, h2, Or.inr h4⟩ hn
    · exact absurd ⟨h1, h2, Or.inl (by simpa using h3)⟩ hn
  · unfold login
    rw [if_neg (by decide), if_pos (by decide)]

/-- Witness of C1: with the form filled in and the CAPTCHA disabled one request
is issued; with the CAPTCHA enabled and no token the CAPTCHA error is set and
nothing is fetched. -/
theorem login_preconditions_witness :
    LoginReady sampleConfig sampleLoginState ∧
    fetchCount (login sampleConfig sampleLoginState).2 = 1 ∧
    login { sampleConfig with CAPTCHA_ENABLED := true } sampleLoginState =
      ({ sampleLoginState with
          error := .string "Please complete the CAPTCHA verification." }, []) :=
  ⟨by decide,
    (login_preconditions sampleConfig sampleLoginState).2.1 (by decide),
    (login_preconditions { sampleConfig with CAPTCHA_ENABLED := true }
      sampleLoginState).2.2.2.2.1 (by decide) (by decide) rfl rfl⟩

theorem loginRun_of_ready (cfg : Config) (s : State) (resp : Response)
    (h : LoginReady cfg s) :
    loginRun cfg s resp =
      ((loginSettled resp { s with error := .string "" }).1,
        .fetch (endpoint cfg "/auth/login")
          (.login s.datas.email s.datas.password
            (if cfg.CAPTCHA_ENABLED then some s.turnstileToken else none)) ::
          (loginSettled resp { s with error := .string "" }).2) := by
  unfold loginRun
  rw [login_of_ready cfg s h]
  rfl

/-- C2: for a login run that passes its preconditions, with `req` the request
issued: a response whose parsed body has a truthy (for a string: non-empty)
`token` stores that token under the key 'token', navigates to the dashboard and
leaves the error empty; a response without such a token stores nothing, does
not navigate and sets the error to the response's `message` when truthy, else
to 'An error occurred.'; a failed request, an unparsable body or a `null` body
sets the error to 'An error occurred.'. The store is written only in the first
case. -/
theorem login_outcome (cfg : Config) (s : State) (h : LoginReady cfg s) :
    (∀ ok token message, token.truthy = true →
      loginRun cfg s (.http ok (.parsed (.value token message))) =
        ({ s with error := .string "" },
          [.fetch (endpoint cfg "/auth/login")
            (.login s.datas.email s.datas.password
              (if cfg.CAPTCHA_ENABLED then some s.turnstileToken else none)),
           .setItem "token" token, .locationReplace "/dash/dashboard"])) ∧
    (∀ ok token message, token.truthy = false →
      loginRun cfg s (.http ok (.parsed (.value token message))) =
        ({ s with error := if message.truthy then message else .string "An error occurred." },
          [.fetch (endpoint cfg "/auth/login")
            (.login s.datas.email s.datas.password
              (if cfg.CAPTCHA_ENABLED then some s.turnstileToken else none))])) ∧
    (∀ resp, (resp = .failed ∨ (∃ ok, resp = .http ok .unparsable) ∨
        (∃ ok, resp = .http ok (.parsed .null))) →
      loginRun cfg s resp =
        ({ s with error := .string "An error occurred." },
          [.fetch (endpoint cfg "/auth/login")
            (.login s.datas.email s.datas.password
              (if cfg.CAPTCHA_ENABLED then some s.turnstileToken else none))])) ∧
    (∀ resp, (∃ e ∈ (loginRun cfg s resp).2, e.isSetItem = true ∨ e.isNavigation = true) →
      ∃ ok token message,
        resp = .http ok (.parsed (.value token message)) ∧ token.truthy = true) := by
  refine ⟨?_, ?_, ?_, ?_⟩
  · intro ok token message ht
    rw [loginRun_of_ready cfg s _ h]
    simp [loginSettled, ht]
  · intro ok token message ht
    rw [loginRun_of_ready cfg s _ h]
    simp [loginSettled, ht]
  · intro resp hr
    rw [loginRun_of_ready cfg s _ h]
    rcases hr with rfl | ⟨ok, rfl⟩ | ⟨ok, rfl⟩ <;> simp [loginSettled, loginCatch]
  · intro resp
    rw [loginRun_of_ready cfg s _ h]
    rintro ⟨e, he, hs⟩
    match resp, he with
    | .failed, he =>
      simp [loginSettled, loginCatch] at he; subst he
      simp [Effect.isSetItem, Effect.isNavigation] at hs
    | .http ok .unparsable, he =>
      simp [loginSettled, loginCatch] at he; subst he
      simp [Effect.isSetItem, Effect.isNavigation] at hs
    | .http ok (.parsed .null), he =>
      simp [loginSettled, loginCatch] at he; subst he
      simp [Effect.isSetItem, Effect.isNavigation] at hs
    | .http ok (.parsed (.value token message)), he =>
      by_cases ht : token.truthy = true
      · exact ⟨ok, token, message, rfl, ht⟩
      · simp [loginSettled, ht] at he; subst he
        simp [Effect.isSetItem, Effect.isNavigation] at hs

/-- Witness of C2: the scenario of a response `{token: "abc"}`. -/
theorem login_outcome_witness :
    LoginReady sampleConfig sampleLoginState ∧
    loginRun sampleConfig sampleLoginState
        (.http true (.parsed (.value (.string "abc") .undefined))) =
      ({ sampleLoginState with error := .string "" },
        [.fetch "https://api.example.com/v1/auth/login"
            (.login "user@test.com" "hunter22" none),
         .setItem "token" (.string "abc"), .locationReplace "/dash/dashboard"]) :=
  ⟨by decide,
    (login_outcome sampleConfig sampleLoginState (by decide)).1 true (.string "abc")
      .undefined rfl⟩

/-! ## Reset password: validation -/

/-- A string is blank exactly when all its characters are whitespace. -/
theorem blank_iff (s : String) : Blank s ↔ ∀ c ∈ s.data, isWhiteSpace c = true := by
  unfold Blank trim
  constructor
  · intro h
    have h1 : ((s.data.dropWhile isWhiteSpace).reverse.dropWhile isWhiteSpace).reverse = [] :=
      congrArg String.data h
    rw [List.reverse_eq_nil_iff, List.dropWhile_eq_nil_iff] at h1
    have h2 : s.data.dropWhile isWhiteSpace = [] := by
      by_contra hne
      have h3 := List.head_dropWhile_not isWhiteSpace s.data hne
      have h4 := h1 _ (List.mem_reverse.mpr (List.head_mem hne))
      simp [h4] at h3
    exact List.dropWhile_eq_nil_iff.mp h2
  · intro h
    rw [List.dropWhile_eq_nil_iff.mpr h]
    rfl

theorem not_blank_of_sixDigits (code : String) (h : SixDigits code) : ¬ Blank code := by
  intro hb
  rw [blank_iff] at hb
  obtain ⟨hlen, hall⟩ := h
  cases hd : code.data with
  | nil => rw [hd] at hlen; simp at hlen
  | cons c cs =>
    have h1 := hb c (by rw [hd]; simp)
    have h2 := hall c (by rw [hd]; simp)
    unfold isWhiteSpace isWhiteSpaceUnit at h1
    unfold isAsciiDigit at h2
    have h9 : ('9'.toNat) = 57 := by decide
    have h0 : ('0'.toNat) = 48 := by decide
    simp only [h0, h9, Bool.and_eq_true, decide_eq_true_eq] at h2
    simp only [Bool.or_eq_true, beq_iff_eq, Bool.and_eq_true, decide_eq_true_eq] at h1
    omega

theorem jsLength_empty : jsLength "" = 0 := rfl

theorem resetCode_entry (d : ResetData) :
    (resetPasswordErrors d).resetCode =
      if Blank d.resetCode then some "Reset code is required."
      else if ¬ SixDigits d.resetCode then some "The code must contain exactly 6 digits."
      else none := by
  unfold resetPasswordErrors Blank
  simp only [← validateResetCode_iff]
  by_cases h1 : trim d.resetCode = ""
  · simp [h1]
  · by_cases h2 : validateResetCode d.resetCode = true
    · simp [h1, h2]
    · simp [h1, h2]

theorem newPassword_entry (d : ResetData) :
    (resetPasswordErrors d).newPassword =
      if d.newPassword = "" then some "The new password is required."
      else if jsLength d.newPassword < 8 then
        some "The password must contain at least 8 characters."
      else none := by
  unfold resetPasswordErrors validatePassword
  by_cases h1 : d.newPassword = ""
  · simp [h1]
  · by_cases h2 : jsLength d.newPassword < 8
    · simp [h1, h2]
    · simp [h1, h2]

theorem confirmPassword_entry (d : ResetData) :
    (resetPasswordErrors d).confirmPassword =
      if d.confirmPassword = "" then some "Password confirmation is required."
      else if d.confirmPassword ≠ d.newPassword then some "The passwords do not match."
      else none := by
  unfold resetPasswordErrors
  by_cases h1 : d.confirmPassword = ""
  · simp [h1]
  · by_cases h2 : d.newPassword = d.confirmPassword
    · simp [h1, h2]
    · have h3 : ¬ d.confirmPassword = d.newPassword := fun h => h2 h.symm
      simp [h1, h2, h3]

/-- The `errors` object is empty exactly on a valid reset form. -/
theorem keyCount_eq_zero_iff (d : ResetData) :
    (resetPasswordErrors d).keyCount = 0 ↔ ResetReady d := by
  have hE : (resetPasswordErrors d).email = none := rfl
  have hG : (resetPasswordErrors d).general = none := rfl
  unfold ResetErrors.keyCount ResetReady
  rw [hE, hG, resetCode_entry, newPassword_entry, confirmPassword_entry]
  constructor
  · intro h
    by_cases c1 : Blank d.resetCode
    · simp [c1] at h
    by_cases c2 : SixDigits d.resetCode
    swap
    · simp [c1, c2] at h
    by_cases n1 : d.newPassword = ""
    · simp [n1] at h
    by_cases n2 : jsLength d.newPassword < 8
    · simp [n1, n2] at h
    by_cases p1 : d.confirmPassword = ""
    · simp [p1] at h
    by_cases p2 : d.confirmPassword = d.newPassword
    swap
    · simp [p1, p2] at h
    exact ⟨c2, by omega, p2⟩
  · rintro ⟨c2, n2, p2⟩
    have c1 := not_blank_of_sixDigits _ c2
    have n1 : d.newPassword ≠ "" := by
      intro h0; rw [h0, jsLength_empty] at n2; omega
    have p1 : d.confirmPassword ≠ "" := by rw [p2]; exact n1
    have n3 : ¬ jsLength d.newPassword < 8 := by omega
    simp [c1, c2, n1, n3, p1, p2]

theorem handleResetPassword_of_ready (cfg : Config) (s : State) (h : ResetReady s.resetData) :
    handleResetPassword cfg s =
      ({ s with resetErrors := {}, isLoading := true },
        [.fetch (endpoint cfg "/auth/reset-password")
          (.resetPassword s.resetData.email s.resetData.resetCode s.resetData.newPassword
            s.resetData.confirmPassword)]) := by
  unfold handleResetPassword
  simp only []
  rw [if_neg]
  rw [(keyCount_eq_zero_iff _).mpr h]
  decide

theorem handleResetPassword_of_not_ready (cfg : Config) (s : State)
    (h : ¬ ResetReady s.resetData) :
    handleResetPassword cfg s =
      ({ s with resetErrors := resetPasswordErrors s.resetData }, []) := by
  unfold handleResetPassword
  simp only []
  rw [if_pos]
  have := mt (keyCount_eq_zero_iff s.resetData).mp h
  omega

/-- C3: `handleResetPassword` issues the reset-password request (exactly one,
carrying the four fields) if and only if the reset code consists of exactly six
ASCII digits, the new password has length at least 8 (JavaScript `length`) and
the confirmation equals the new password. The codes "12a456" and "12345" are
rejected without a network call, and so are a new password shorter than 8
whatever the confirmation, and a confirmation different from the new
password whatever their lengths. -/
theorem handleResetPassword_fetch_iff (cfg : Config) (s : State) :
    (fetchCount (handleResetPassword cfg s).2 ≠ 0 ↔ ResetReady s.resetData) ∧
    (ResetReady s.resetData →
      (handleResetPassword cfg s).2 =
        [.fetch (endpoint cfg "/auth/reset-password")
          (.resetPassword s.resetData.email s.resetData.resetCode s.resetData.newPassword
            s.resetData.confirmPassword)]) ∧
    (s.resetData.resetCode = "12a456" ∨ s.resetData.resetCode = "12345" →
      (handleResetPassword cfg s).2 = []) ∧
    (jsLength s.resetData.newPassword < 8 → (handleResetPassword cfg s).2 = []) ∧
    (s.resetData.confirmPassword ≠ s.resetData.newPassword →
      (handleResetPassword cfg s).2 = []) := by
  have no : ¬ ResetReady s.resetData → (handleResetPassword cfg s).2 = [] := by
    intro h; rw [handleResetPassword_of_not_ready cfg s h]
  refine ⟨⟨?_, ?_⟩, ?_, ?_, ?_, ?_⟩
  · intro h
    by_contra hn
    rw [no hn] at h
    exact h rfl
  · intro h
    rw [handleResetPassword_of_ready cfg s h]
    simp [fetchCount, Effect.isFetch]
  · intro h
    rw [handleResetPassword_of_ready cfg s h]
  · intro h
    apply no
    rintro ⟨h6, -, -⟩
    rcases h with h | h <;> rw [h] at h6 <;> revert h6 <;> decide
  · intro h
    apply no
    rintro ⟨-, h8, -⟩
    omega
  · intro h
    apply no
    rintro ⟨-, -, hc⟩
    exact h hc

/-- Witness of C3: the filled-in reset form issues the reset-password request
with its four fields. -/
theorem handleResetPassword_fetch_iff_witness :
    ResetReady sampleResetState.resetData ∧
    (handleResetPassword sampleConfig sampleResetState).2 =
      [.fetch "https://api.example.com/v1/auth/reset-password"
        (.resetPassword "missing@x.com" "000000" "s3cretpass" "s3cretpass")] :=
  ⟨by decide,
    (handleResetPassword_fetch_iff sampleConfig sampleResetState).2.1 (by decide)⟩

/-- C4: the `errors` object of `handleResetPassword` is built field by field.
It has key `resetCode` iff the code is blank once trimmed ('Reset code is
required.') or else is not exactly six digits ('The code must contain exactly
6 digits.'); key `newPassword` iff the new password is empty ('The new password
is required.') or else shorter than 8 ('The password must contain at least 8
characters.'); key `confirmPassword` iff the confirmation is empty ('Password
confirmation is required.') or else differs from the new password ('The
passwords do not match.'); it has no other key. When it is non-empty it becomes
`resetErrors`, nothing else changes and no call is made; with the three fields
empty it holds the three 'required' messages. -/
theorem resetPasswordErrors_spec (d : ResetData) :
    (((resetPasswordErrors d).resetCode ≠ none ↔
        (Blank d.resetCode ∨ ¬ SixDigits d.resetCode)) ∧
      (Blank d.resetCode →
        (resetPasswordErrors d).resetCode = some "Reset code is required.") ∧
      (¬ Blank d.resetCode → ¬ SixDigits d.resetCode →
        (resetPasswordErrors d).resetCode = some "The code must contain exactly 6 digits.")) ∧
    (((resetPasswordErrors d).newPassword ≠ none ↔
        (d.newPassword = "" ∨ jsLength d.newPassword < 8)) ∧
      (d.newPassword = "" →
        (resetPasswordErrors d).newPassword = some "The new password is required.") ∧
      (d.newPassword ≠ "" → jsLength d.newPassword < 8 →
        (resetPasswordErrors d).newPassword =
          some "The password must contain at least 8 characters.")) ∧
    (((resetPasswordErrors d).confirmPassword ≠ none ↔
        (d.confirmPassword = "" ∨ d.confirmPassword ≠ d.newPassword)) ∧
      (d.confirmPassword = "" →
        (resetPasswordErrors d).confirmPassword = some "Password confirmation is required.") ∧
      (d.confirmPassword ≠ "" → d.confirmPassword ≠ d.newPassword →
        (resetPasswordErrors d).confirmPassword = some "The passwords do not match.")) ∧
    ((resetPasswordErrors d).email = none ∧ (resetPasswordErrors d).general = none) ∧
    (∀ cfg s, s.resetData = d → (resetPasswordErrors d).keyCount > 0 →
      handleResetPassword cfg s = ({ s with resetErrors := resetPasswordErrors d }, [])) ∧
    resetPasswordErrors emptyResetData =
      { resetCode := some "Reset code is required."
        newPassword := some "The new password is required."
        confirmPassword := some "Password confirmation is required." } := by
  refine ⟨⟨?_, ?_, ?_⟩, ⟨?_, ?_, ?_⟩, ⟨?_, ?_, ?_⟩, ⟨rfl, rfl⟩, ?_, by decide⟩
  · rw [resetCode_entry]
    by_cases c1 : Blank d.resetCode
    · simp [c1]
    · by_cases c2 : SixDigits d.resetCode
      · simp [c1, c2]
      · simp [c1, c2]
  · intro c1; rw [resetCode_entry, if_pos c1]
  · intro c1 c2; rw [resetCode_entry, if_neg c1, if_pos c2]
  · rw [newPassword_entry]
    by_cases n1 : d.newPassword = ""
    · simp [n1]
    · by_cases n2 : jsLength d.newPassword < 8
      · simp [n1, n2]
      · simp [n1, n2]
  · intro n1; rw [newPassword_entry, if_pos n1]
  · intro n1 n2; rw [newPassword_entry, if_neg n1, if_pos n2]
  · rw [confirmPassword_entry]
    by_cases p1 : d.confirmPassword = ""
    · simp [p1]
    · by_cases p2 : d.confirmPassword = d.newPassword
      · simp [p1, p2]
      · simp [p1, p2]
  · intro p1; rw [confirmPassword_entry, if_pos p1]
  · intro p1 p2; rw [confirmPassword_entry, if_neg p1, if_pos p2]
  · rintro cfg s rfl hk
    apply handleResetPassword_of_not_ready
    intro hr
    rw [(keyCount_eq_zero_iff _).mpr hr] at hk
    exact absurd hk (by decide)

/-- Witness of C4: code "12a456", new password "short" and confirmation
"other" give the three format errors at once. -/
theorem resetPasswordErrors_spec_witness :
    (¬ Blank "12a456" ∧ ¬ SixDigits "12a456") ∧
    (resetPasswordErrors
        { email := "", resetCode := "12a456", newPassword := "short",
          confirmPassword := "other" }).resetCode =
      some "The code must contain exactly 6 digits." ∧
    (resetPasswordErrors
        { email := "", resetCode := "12a456", newPassword := "short",
          confirmPassword := "other" }).newPassword =
      some "The password must contain at least 8 characters." ∧
    (resetPasswordErrors
        { email := "", resetCode := "12a456", newPassword := "short",
          confirmPassword := "other" }).confirmPassword =
      some "The passwords do not match." :=
  ⟨⟨by decide, by decide⟩,
    (resetPasswordErrors_spec _).1.2.2 (by decide) (by decide),
    (resetPasswordErrors_spec _).2.1.2.2 (by decide) (by decide),
    (resetPasswordErrors_spec _).2.2.1.2.2 (by decide) (by decide)⟩

/-! ## Forgot password: validation -/

theorem manageForgotPassword_of_ready (cfg : Config) (s : State) (h : ForgotReady s) :
    manageForgotPassword cfg s =
      ({ s with resetErrors := {}, isLoading := true },
        [.fetch (endpoint cfg "/auth/forgot-password") (.forgotPassword s.resetData.email)]) := by
  obtain ⟨h1, h2⟩ := h
  unfold Blank at h1
  unfold manageForgotPassword
  rw [if_neg h1, if_neg (by simp [h2])]

theorem manageForgotPassword_of_blank (cfg : Config) (s : State) (h : Blank s.resetData.email) :
    manageForgotPassword cfg s =
      ({ s with resetErrors := { email := some "Email is required." } }, []) := by
  unfold Blank at h
  unfold manageForgotPassword
  rw [if_pos h]

theorem manageForgotPassword_of_malformed (cfg : Config) (s : State)
    (h1 : ¬ Blank s.resetData.email) (h2 : validateEmail s.resetData.email = false) :
    manageForgotPassword cfg s =
      ({ s with resetErrors := { email := some "Please enter a valid email address." } },
        []) := by
  unfold Blank at h1
  unfold manageForgotPassword
  rw [if_neg h1, if_pos (by simp [h2])]

/-- C5: when the reset email is blank once trimmed or fails `validateEmail`,
`manageForgotPassword` issues no network call and changes only `resetErrors`
(so `resetStep` is unchanged), which becomes exactly `{email: 'Email is
required.'}` when blank and exactly `{email: 'Please enter a valid email
address.'}` when non-blank but malformed. When the email is non-blank and passes
`validateEmail`, exactly one request is issued: the forgot-password request
carrying that email. -/
theorem manageForgotPassword_validation (cfg : Config) (s : State) :
    (Blank s.resetData.email →
      manageForgotPassword cfg s =
        ({ s with resetErrors := { email := some "Email is required." } }, [])) ∧
    (¬ Blank s.resetData.email → validateEmail s.resetData.email = false →
      manageForgotPassword cfg s =
        ({ s with resetErrors := { email := some "Please enter a valid email address." } },
          [])) ∧
    (¬ ForgotReady s →
      fetchCount (manageForgotPassword cfg s).2 = 0 ∧
        (manageForgotPassword cfg s).1.resetStep = s.resetStep) ∧
    (ForgotReady s →
      (manageForgotPassword cfg s).2 =
        [.fetch (endpoint cfg "/auth/forgot-password")
          (.forgotPassword s.resetData.email)]) := by
  refine ⟨manageForgotPassword_of_blank cfg s, manageForgotPassword_of_malformed cfg s, ?_,
    fun h => by rw [manageForgotPassword_of_ready cfg s h]⟩
  intro h
  by_cases h1 : Blank s.resetData.email
  · rw [manageForgotPassword_of_blank cfg s h1]; exact ⟨rfl, rfl⟩
  · have h2 : validateEmail s.resetData.email = false := by
      by_contra h2
      exact h ⟨h1, by simpa using h2⟩
    rw [manageForgotPassword_of_malformed cfg s h1 h2]; exact ⟨rfl, rfl⟩

/-- Witness of C5: the email "missing@x.com" is sent in one forgot-password
request. -/
theorem manageForgotPassword_validation_witness :
    ForgotReady sampleForgotState ∧
    (manageForgotPassword sampleConfig sampleForgotState).2 =
      [.fetch "https://api.example.com/v1/auth/forgot-password"
        (.forgotPassword "missing@x.com")] :=
  ⟨by decide,
    (manageForgotPassword_validation sampleConfig sampleForgotState).2.2.2 (by decide)⟩

/-! ## Forgot password: outcome of the request -/

theorem manageForgotPasswordRun_of_ready (cfg : Config) (s : State) (resp : Response)
    (h : ForgotReady s) :
    manageForgotPasswordRun cfg s resp =
      ((manageForgotPasswordSettled resp { s with resetErrors := {}, isLoading := true }).1,
        .fetch (endpoint cfg "/auth/forgot-password") (.forgotPassword s.resetData.email) ::
          (manageForgotPasswordSettled resp
            { s with resetErrors := {}, isLoading := true }).2) := by
  unfold manageForgotPasswordRun
  rw [manageForgotPassword_of_ready cfg s h]
  rfl

theorem not_found_nonempty (m : String) (h : includes (toLowerCase m) "not found" = true) :
    m ≠ "" := by
  rintro rfl
  revert h
  decide

/-- C6 as stated fails: a validated forgot-password request answered by an
HTTP-OK response whose body is not JSON leaves `resetStep` at 1 and sets a
general error, because the body is parsed (line 102) before `response.ok` is
read (line 104). -/
theorem forgot_ok_unparsable :
    ForgotReady sampleForgotState ∧
    ¬ ((manageForgotPasswordRun sampleConfig sampleForgotState
          (.http true .unparsable)).1.resetStep = 2 ∧
        (manageForgotPasswordRun sampleConfig sampleForgotState
          (.http true .unparsable)).1.resetErrors = {}) ∧
    (manageForgotPasswordRun sampleConfig sampleForgotState (.http true .unparsable)).1 =
      { sampleForgotState with
        resetErrors := { general := some "Connection error. Please try again." } } := by
  decide

/-- C6, amended: for a validated forgot-password request, an HTTP-OK response
whose body parses as JSON sets `resetStep` to 2 and empties `resetErrors`; a
non-OK response with a JSON body other than `null` leaves `resetStep` unchanged
and sets `resetErrors` to exactly `{email: 'No account found with this email
address.'}` when its string `message` contains "not found" in any letter case,
to exactly `{general: message}` for any other non-empty string `message`, and to
exactly `{general: 'An error occurred.'}` when `message` is absent or falsy. A
response of either status whose body does not parse as JSON, and a request
that fails, leave `resetStep` unchanged and set `resetErrors` to exactly
`{general: 'Connection error. Please try again.'}`. Nothing else changes but
`isLoading`, which ends `false`. -/
theorem forgot_outcome (cfg : Config) (s : State) (h : ForgotReady s) :
    (∀ json, (manageForgotPasswordRun cfg s (.http true (.parsed json))).1 =
      { s with resetStep := 2, resetErrors := {}, isLoading := false }) ∧
    (∀ token m, includes (toLowerCase m) "not found" = true →
      (manageForgotPasswordRun cfg s (.http false (.parsed (.value token (.string m))))).1 =
        { s with
          resetErrors := { email := some "No account found with this email address." }
          isLoading := false }) ∧
    (∀ token m, m ≠ "" → includes (toLowerCase m) "not found" = false →
      (manageForgotPasswordRun cfg s (.http false (.parsed (.value token (.string m))))).1 =
        { s with resetErrors := { general := some m }, isLoading := false }) ∧
    (∀ token message, message.truthy = false →
      (manageForgotPasswordRun cfg s (.http false (.parsed (.value token message)))).1 =
        { s with resetErrors := { general := some "An error occurred." }, isLoading := false }) ∧
    (∀ resp, (resp = .failed ∨ ∃ ok, resp = .http ok .unparsable) →
      (manageForgotPasswordRun cfg s resp).1 =
        { s with
          resetErrors := { general := some "Connection error. Please try again." }
          isLoading := false }) := by
  refine ⟨?_, ?_, ?_, ?_, ?_⟩
  · intro json
    rw [manageForgotPasswordRun_of_ready cfg s _ h]
    simp [manageForgotPasswordSettled, manageForgotPasswordTry]
  · intro token m hm
    rw [manageForgotPasswordRun_of_ready cfg s _ h]
    simp [manageForgotPasswordSettled, manageForgotPasswordTry, forgotPasswordFailure, hm,
      not_found_nonempty m hm]
  · intro token m hne hm
    rw [manageForgotPasswordRun_of_ready cfg s _ h]
    simp [manageForgotPasswordSettled, manageForgotPasswordTry, forgotPasswordFailure, hm, hne]
  · intro token message hf
    rw [manageForgotPasswordRun_of_ready cfg s _ h]
    cases message with
    | string m =>
      have hm : m = "" := by simpa [JSValue.truthy] using hf
      simp [manageForgotPasswordSettled, manageForgotPasswordTry, forgotPasswordFailure, hm]
    | _ =>
      simp_all [manageForgotPasswordSettled, manageForgotPasswordTry, forgotPasswordFailure]
  · intro resp hr
    rw [manageForgotPasswordRun_of_ready cfg s _ h]
    rcases hr with rfl | ⟨ok, rfl⟩ <;>
      simp [manageForgotPasswordSettled, manageForgotPasswordTry]

/-- Witness of C6: email "missing@x.com", status 404 with
`{message: "Account not found"}` gives the email error, which contains "No
account found", and no general error. -/
theorem forgot_outcome_witness :
    ForgotReady sampleForgotState ∧
    (manageForgotPasswordRun sampleConfig sampleForgotState
        (.http false (.parsed (.value .undefined (.string "Account not found"))))).1 =
      { sampleForgotState with
        resetErrors := { email := some "No account found with this email address." }
        isLoading := false } ∧
    includes "No account found with this email address." "No account found" = true :=
  ⟨by decide,
    (forgot_outcome sampleConfig sampleForgotState (by decide)).2.1 .undefined
      "Account not found" (by decide),
    by decide⟩

/-! ## Reset password: outcome of the request -/

theorem handleResetPasswordRun_of_ready (cfg : Config) (s : State) (resp : Response)
    (h : ResetReady s.resetData) :
    handleResetPasswordRun cfg s resp =
      ((handleResetPasswordSettled resp { s with resetErrors := {}, isLoading := true }).1,
        .fetch (endpoint cfg "/auth/reset-password")
          (.resetPassword s.resetData.email s.resetData.resetCode s.resetData.newPassword
            s.resetData.confirmPassword) ::
          (handleResetPasswordSettled resp
            { s with resetErrors := {}, isLoading := true }).2) := by
  unfold handleResetPasswordRun
  rw [handleResetPassword_of_ready cfg s h]
  rfl

theorem invalid_nonempty (m : String) (h : includes (toLowerCase m) "invalid" = true) :
    m ≠ "" := by
  rintro rfl
  revert h
  decide

theorem expired_nonempty (m : String) (h : includes (toLowerCase m) "expired" = true) :
    m ≠ "" := by
  rintro rfl
  revert h
  decide

/-- C7 as stated fails: a validated reset-password request answered by a
non-OK response whose body is not JSON (so without a message) does not set
`{general: 'An error occurred.'}` but the connection error of the `catch`
block (line 182). -/
theorem reset_failure_unparsable :
    ResetReady sampleResetState.resetData ∧
    (handleResetPasswordRun sampleConfig sampleResetState
        (.http false .unparsable)).1.resetErrors ≠
      { general := some "An error occurred." } ∧
    (handleResetPasswordRun sampleConfig sampleResetState
        (.http false .unparsable)).1.resetErrors =
      { general := some "Connection error. Please try again." } := by
  decide

/-- C7, amended: for a validated reset-password request and a non-OK response
with a JSON body other than `null`: when its string `message`, lower-cased,
contains both "invalid" and "code", `resetErrors` is exactly `{resetCode:
'Invalid or expired reset code.'}`; otherwise, when it contains "expired",
exactly `{resetCode: 'The reset code has expired. Request a new code.'}`;
otherwise exactly `{general: message}` for a non-empty string `message` and
exactly `{general: 'An error occurred.'}` when `message` is absent or falsy. The
first rule has precedence over the second and neither sets a general error. A
non-OK response whose body does not parse as JSON sets exactly `{general:
'Connection error. Please try again.'}`. Nothing else changes but `isLoading`,
which ends `false`. -/
theorem reset_failure_outcome (cfg : Config) (s : State) (h : ResetReady s.resetData) :
    (∀ token m, includes (toLowerCase m) "invalid" = true →
      includes (toLowerCase m) "code" = true →
      (handleResetPasswordRun cfg s (.http false (.parsed (.value token (.string m))))).1 =
        { s with
          resetErrors := { resetCode := some "Invalid or expired reset code." }
          isLoading := false }) ∧
    (∀ token m,
      ¬ (includes (toLowerCase m) "invalid" = true ∧ includes (toLowerCase m) "code" = true) →
      includes (toLowerCase m) "expired" = true →
      (handleResetPasswordRun cfg s (.http false (.parsed (.value token (.string m))))).1 =
        { s with
          resetErrors := { resetCode := some "The reset code has expired. Request a new code." }
          isLoading := false }) ∧
    (∀ token m, m ≠ "" →
      ¬ (includes (toLowerCase m) "invalid" = true ∧ includes (toLowerCase m) "code" = true) →
      includes (toLowerCase m) "expired" = false →
      (handleResetPasswordRun cfg s (.http false (.parsed (.value token (.string m))))).1 =
        { s with resetErrors := { general := some m }, isLoading := false }) ∧
    (∀ token message, message.truthy = false →
      (handleResetPasswordRun cfg s (.http false (.parsed (.value token message)))).1 =
        { s with resetErrors := { general := some "An error occurred." }, isLoading := false }) ∧
    (handleResetPasswordRun cfg s (.http false .unparsable)).1 =
      { s with
        resetErrors := { general := some "Connection error. Please try again." }
        isLoading := false } := by
  refine ⟨?_, ?_, ?_, ?_, ?_⟩
  · intro token m h1 h2
    rw [handleResetPasswordRun_of_ready cfg s _ h]
    simp [handleResetPasswordSettled, handleResetPasswordTry, resetPasswordFailure, h1, h2,
      invalid_nonempty m h1]
  · intro token m h1 h2
    rw [handleResetPasswordRun_of_ready cfg s _ h]
    have hne := expired_nonempty m h2
    by_cases hA : includes (toLowerCase m) "invalid" = true
    · have hB : includes (toLowerCase m) "code" = false := by
        by_contra hB
        exact h1 ⟨hA, by simpa using hB⟩
      simp [handleResetPasswordSettled, handleResetPasswordTry, resetPasswordFailure, hA, hB,
        h2, hne]
    · simp [handleResetPasswordSettled, handleResetPasswordTry, resetPasswordFailure, hA, h2,
        hne]
  · intro token m hne h1 h2
    rw [handleResetPasswordRun_of_ready cfg s _ h]
    by_cases hA : includes (toLowerCase m) "invalid" = true
    · have hB : includes (toLowerCase m) "code" = false := by
        by_contra hB
        exact h1 ⟨hA, by simpa using hB⟩
      simp [handleResetPasswordSettled, handleResetPasswordTry, resetPasswordFailure, hA, hB,
        h2, hne]
    · simp [handleResetPasswordSettled, handleResetPasswordTry, resetPasswordFailure, hA, h2,
        hne]
  · intro token message hf
    rw [handleResetPasswordRun_of_ready cfg s _ h]
    cases message with
    | string m =>
      have hm : m = "" := by simpa [JSValue.truthy] using hf
      subst hm
      simp [handleResetPasswordSettled, handleResetPasswordTry, resetPasswordFailure]
    | _ =>
      simp_all [handleResetPasswordSettled, handleResetPasswordTry, resetPasswordFailure]
  · rw [handleResetPasswordRun_of_ready cfg s _ h]
    simp [handleResetPasswordSettled, handleResetPasswordTry]

/-- Witness of C7: reset code "000000" and a non-OK response
`{message: "Invalid reset code"}` give the `resetCode` error and no general
error. -/
theorem reset_failure_outcome_witness :
    ResetReady sampleResetState.resetData ∧
    (handleResetPasswordRun sampleConfig sampleResetState
        (.http false (.parsed (.value .undefined (.string "Invalid reset code"))))).1 =
      { sampleResetState with
        resetErrors := { resetCode := some "Invalid or expired reset code." }
        isLoading := false } :=
  ⟨by decide,
    (reset_failure_outcome sampleConfig sampleResetState (by decide)).1 .undefined
      "Invalid reset code" (by decide) (by decide)⟩

/-! ## Closing the modal -/

/-- C8 as stated fails in its last sentence: a validated reset-password
request answered by an HTTP-OK response whose body is not JSON leaves the modal
open at step 2 with its fields filled in and a general error, because the body
is parsed (line 164) before `response.ok` is read (line 166). -/
theorem reset_ok_unparsable :
    ResetReady sampleResetState.resetData ∧
    ¬ ((handleResetPasswordRun sampleConfig sampleResetState
          (.http true .unparsable)).1.showResetModal = false ∧
        (handleResetPasswordRun sampleConfig sampleResetState
          (.http true .unparsable)).1.resetStep = 1 ∧
        (handleResetPasswordRun sampleConfig sampleResetState
          (.http true .unparsable)).1.resetData = emptyResetData ∧
        (handleResetPasswordRun sampleConfig sampleResetState
          (.http true .unparsable)).1.resetErrors = {}) ∧
    (handleResetPasswordRun sampleConfig sampleResetState (.http true .unparsable)).1 =
      { sampleResetState with
        resetErrors := { general := some "Connection error. Please try again." } } := by
  decide

/-- C8, amended: from every state `closeResetModal` yields `showResetModal =
false`, `resetStep = 1`, the four `resetData` fields empty and `resetErrors`
empty, leaving the other cells as they were; closing twice equals closing once.
A `handleResetPassword` run that receives an HTTP-OK response whose body parses
as JSON yields the same reset state (with `isLoading` false). -/
theorem closeResetModal_resets (s : State) :
    ((closeResetModal s).showResetModal = false ∧ (closeResetModal s).resetStep = 1 ∧
      (closeResetModal s).resetData.email = "" ∧ (closeResetModal s).resetData.resetCode = "" ∧
      (closeResetModal s).resetData.newPassword = "" ∧
      (closeResetModal s).resetData.confirmPassword = "" ∧
      (closeResetModal s).resetErrors = {}) ∧
    ((closeResetModal s).datas = s.datas ∧ (closeResetModal s).error = s.error ∧
      (closeResetModal s).isLoading = s.isLoading ∧
      (closeResetModal s).turnstileToken = s.turnstileToken) ∧
    closeResetModal (closeResetModal s) = closeResetModal s ∧
    (∀ cfg json, ResetReady s.resetData →
      (handleResetPasswordRun cfg s (.http true (.parsed json))).1 =
        { closeResetModal s with isLoading := false }) := by
  refine ⟨⟨rfl, rfl, rfl, rfl, rfl, rfl, rfl⟩, ⟨rfl, rfl, rfl, rfl⟩, rfl, ?_⟩
  intro cfg json h
  rw [handleResetPasswordRun_of_ready cfg s _ h]
  simp [handleResetPasswordSettled, handleResetPasswordTry, closeResetModal]

/-- Witness of C8: the filled-in step 2 of the modal is reset by a successful
reset-password run. -/
theorem closeResetModal_resets_witness :
    ResetReady sampleResetState.resetData ∧
    (handleResetPasswordRun sampleConfig sampleResetState
        (.http true (.parsed (.value .undefined (.string "ok"))))).1 =
      { closeResetModal sampleResetState with isLoading := false } :=
  ⟨by decide,
    (closeResetModal_resets sampleResetState).2.2.2 sampleConfig
      (.value .undefined (.string "ok")) (by decide)⟩

/-! ## The loading flag -/

theorem manageForgotPasswordSettled_isLoading (resp : Response) (s : State) :
    (manageForgotPasswordSettled resp s).1.isLoading = false := rfl

theorem handleResetPasswordSettled_isLoading (resp : Response) (s : State) :
    (handleResetPasswordSettled resp s).1.isLoading = false := rfl

/-- C10: `manageForgotPassword` and `handleResetPassword` set `isLoading` to
true exactly when validation has passed, in the step that issues the request
(one `fetch`); on a validation failure they issue nothing and leave `isLoading`
as it was. Whatever the outcome of the request (HTTP-OK, non-OK, unparsable
body, network failure) and whatever happened in between, `isLoading` is false
once the handler has finished. -/
theorem isLoading_discipline (cfg : Config) (s : State) :
    ((ForgotReady s →
        (manageForgotPassword cfg s).1.isLoading = true ∧
          fetchCount (manageForgotPassword cfg s).2 = 1) ∧
      (¬ ForgotReady s →
        (manageForgotPassword cfg s).1.isLoading = s.isLoading ∧
          fetchCount (manageForgotPassword cfg s).2 = 0) ∧
      (∀ resp, (manageForgotPasswordSettled resp s).1.isLoading = false) ∧
      (∀ resp, ForgotReady s → (manageForgotPasswordRun cfg s resp).1.isLoading = false)) ∧
    ((ResetReady s.resetData →
        (handleResetPassword cfg s).1.isLoading = true ∧
          fetchCount (handleResetPassword cfg s).2 = 1) ∧
      (¬ ResetReady s.resetData →
        (handleResetPassword cfg s).1.isLoading = s.isLoading ∧
          fetchCount (handleResetPassword cfg s).2 = 0) ∧
      (∀ resp, (handleResetPasswordSettled resp s).1.isLoading = false) ∧
      (∀ resp, ResetReady s.resetData →
        (handleResetPasswordRun cfg s resp).1.isLoading = false)) := by
  refine ⟨⟨?_, ?_, fun _ => rfl, ?_⟩, ⟨?_, ?_, fun _ => rfl, ?_⟩⟩
  · intro h; rw [manageForgotPassword_of_ready cfg s h]; exact ⟨rfl, rfl⟩
  · intro h
    by_cases h1 : Blank s.resetData.email
    · rw [manageForgotPassword_of_blank cfg s h1]; exact ⟨rfl, rfl⟩
    · have h2 : validateEmail s.resetData.email = false := by
        by_contra h2
        exact h ⟨h1, by simpa using h2⟩
      rw [manageForgotPassword_of_malformed cfg s h1 h2]; exact ⟨rfl, rfl⟩
  · intro resp h; rw [manageForgotPasswordRun_of_ready cfg s resp h]; rfl
  · intro h; rw [handleResetPassword_of_ready cfg s h]; exact ⟨rfl, rfl⟩
  · intro h; rw [handleResetPassword_of_not_ready cfg s h]; exact ⟨rfl, rfl⟩
  · intro resp h; rw [handleResetPasswordRun_of_ready cfg s resp h]; rfl

/-- Witness of C10: a valid email raises the flag with the request, an empty
reset form leaves it as it was. -/
theorem isLoading_discipline_witness :
    ForgotReady sampleForgotState ∧
    ((manageForgotPassword sampleConfig sampleForgotState).1.isLoading = true ∧
      fetchCount (manageForgotPassword sampleConfig sampleForgotState).2 = 1) ∧
    ¬ ResetReady sampleForgotState.resetData ∧
    ((handleResetPassword sampleConfig sampleForgotState).1.isLoading =
        sampleForgotState.isLoading ∧
      fetchCount (handleResetPassword sampleConfig sampleForgotState).2 = 0) :=
  ⟨by decide,
    (isLoading_discipline sampleConfig sampleForgotState).1.1 (by decide),
    by decide,
    (isLoading_discipline sampleConfig sampleForgotState).2.2.1 (by decide)⟩

/-! ## The reset step along the runs of the component -/

theorem login_facts (cfg : Config) (s : State) :
    (login cfg s).1.resetStep = s.resetStep ∧
      ∀ r ∈ issued (login cfg s).2, ∃ a b c, r = .login a b c := by
  unfold login
  split
  · exact ⟨rfl, by simp [issued]⟩
  · split
    · exact ⟨rfl, by simp [issued]⟩
    · split
      · exact ⟨rfl, by simp [issued]⟩
      · exact ⟨rfl, by simp [issued]⟩

theorem manageForgotPassword_facts (cfg : Config) (s : State) :
    (manageForgotPassword cfg s).1.resetStep = s.resetStep ∧
      ∀ r ∈ issued (manageForgotPassword cfg s).2,
        r = .forgotPassword s.resetData.email ∧ ForgotReady s := by
  by_cases h : ForgotReady s
  · rw [manageForgotPassword_of_ready cfg s h]
    exact ⟨rfl, by simp [issued, h]⟩
  · by_cases h1 : Blank s.resetData.email
    · rw [manageForgotPassword_of_blank cfg s h1]; exact ⟨rfl, by simp [issued]⟩
    · have h2 : validateEmail s.resetData.email = false := by
        by_contra h2
        exact h ⟨h1, by simpa using h2⟩
      rw [manageForgotPassword_of_malformed cfg s h1 h2]; exact ⟨rfl, by simp [issued]⟩

theorem handleResetPassword_facts (cfg : Config) (s : State) :
    (handleResetPassword cfg s).1.resetStep = s.resetStep ∧
      ∀ r ∈ issued (handleResetPassword cfg s).2, ∃ a b c d, r = .resetPassword a b c d := by
  by_cases h : ResetReady s.resetData
  · rw [handleResetPassword_of_ready cfg s h]
    exact ⟨rfl, by simp [issued]⟩
  · rw [handleResetPassword_of_not_ready cfg s h]
    exact ⟨rfl, by simp [issued]⟩

theorem loginSettled_facts (resp : Response) (s : State) :
    (loginSettled resp s).1.resetStep = s.resetStep ∧ issued (loginSettled resp s).2 = [] := by
  unfold loginSettled
  split
  · exact ⟨rfl, rfl⟩
  · exact ⟨rfl, rfl⟩
  · exact ⟨rfl, rfl⟩
  · split
    · exact ⟨rfl, rfl⟩
    · exact ⟨rfl, rfl⟩

theorem manageForgotPasswordTry_facts (resp : Response) (s : State) (r : State × List Effect)
    (h : manageForgotPasswordTry resp s = .ok r) :
    (r.1.resetStep = s.resetStep ∨
      (r.1.resetStep = 2 ∧ ∃ json, resp = .http true (.parsed json))) ∧ issued r.2 = [] := by
  unfold manageForgotPasswordTry at h
  split at h
  · cases h
  · cases h
  · rename_i ok json
    split at h
    · rename_i hok
      cases h
      subst hok
      exact ⟨Or.inr ⟨rfl, json, rfl⟩, rfl⟩
    · split at h
      · cases h; exact ⟨Or.inl rfl, rfl⟩
      · cases h

theorem manageForgotPasswordSettled_facts (resp : Response) (s : State) :
    ((manageForgotPasswordSettled resp s).1.resetStep = s.resetStep ∨
      ((manageForgotPasswordSettled resp s).1.resetStep = 2 ∧
        ∃ json, resp = .http true (.parsed json))) ∧
      issued (manageForgotPasswordSettled resp s).2 = [] := by
  unfold manageForgotPasswordSettled
  cases h : manageForgotPasswordTry resp s with
  | error e => exact ⟨Or.inl rfl, rfl⟩
  | ok r => exact manageForgotPasswordTry_facts resp s r h

theorem handleResetPasswordTry_facts (resp : Response) (s : State) (r : State × List Effect)
    (h : handleResetPasswordTry resp s = .ok r) :
    (r.1.resetStep = s.resetStep ∨ r.1.resetStep = 1) ∧ issued r.2 = [] := by
  unfold handleResetPasswordTry at h
  split at h
  · cases h
  · cases h
  · split at h
    · cases h; exact ⟨Or.inr rfl, rfl⟩
    · split at h
      · cases h; exact ⟨Or.inl rfl, rfl⟩
      · cases h

theorem handleResetPasswordSettled_facts (resp : Response) (s : State) :
    ((handleResetPasswordSettled resp s).1.resetStep = s.resetStep ∨
      (handleResetPasswordSettled resp s).1.resetStep = 1) ∧
      issued (handleResetPasswordSettled resp s).2 = [] := by
  unfold handleResetPasswordSettled
  cases h : handleResetPasswordTry resp s with
  | error e => exact ⟨Or.inl rfl, rfl⟩
  | ok r => exact handleResetPasswordTry_facts resp s r h

theorem stepFacts_of_state (sys : Sys) (ev : Event) (st : State)
    (h : st.resetStep = sys.state.resetStep ∨ st.resetStep = 1) :
    StepFacts sys ev { sys with state := st } := by
  refine ⟨?_, fun r hr => Or.inl hr⟩
  rcases h with h | h
  · exact Or.inl h
  · exact Or.inr (Or.inl h)

theorem step_facts (cfg : Config) (sys : Sys) (ev : Event) (next : Sys)
    (h : step cfg sys ev = some next) : StepFacts sys ev next := by
  cases ev with
  | changeEmail v => cases h; exact stepFacts_of_state _ _ _ (Or.inl rfl)
  | changePassword v => cases h; exact stepFacts_of_state _ _ _ (Or.inl rfl)
  | captchaCallback token =>
    simp only [step] at h
    split at h
    · cases h; exact stepFacts_of_state _ _ _ (Or.inl rfl)
    · cases h
  | captchaExpired =>
    simp only [step] at h
    split at h
    · cases h; exact stepFacts_of_state _ _ _ (Or.inl rfl)
    · cases h
  | captchaError =>
    simp only [step] at h
    split at h
    · cases h; exact stepFacts_of_state _ _ _ (Or.inl rfl)
    · cases h
  | clickLogin =>
    cases h
    refine ⟨Or.inl (login_facts cfg sys.state).1, fun r hr => ?_⟩
    rcases List.mem_append.mp hr with hr | hr
    · exact Or.inl hr
    · exact Or.inr (Or.inl ((login_facts cfg sys.state).2 r hr))
  | clickForgot => cases h; exact stepFacts_of_state _ _ _ (Or.inl rfl)
  | clickClose =>
    simp only [step] at h
    split at h
    · cases h; exact stepFacts_of_state _ _ _ (Or.inr rfl)
    · cases h
  | changeResetEmail v =>
    simp only [step] at h
    split at h
    · cases h; exact stepFacts_of_state _ _ _ (Or.inl rfl)
    · cases h
  | changeResetCode v =>
    simp only [step] at h
    split at h
    · cases h; exact stepFacts_of_state _ _ _ (Or.inl rfl)
    · cases h
  | changeNewPassword v =>
    simp only [step] at h
    split at h
    · cases h; exact stepFacts_of_state _ _ _ (Or.inl rfl)
    · cases h
  | changeConfirmPassword v =>
    simp only [step] at h
    split at h
    · cases h; exact stepFacts_of_state _ _ _ (Or.inl rfl)
    · cases h
  | clickBack =>
    simp only [step] at h
    split at h
    · cases h; exact stepFacts_of_state _ _ _ (Or.inr rfl)
    · cases h
  | clickSendResetCode =>
    simp only [step] at h
    split at h
    · cases h
      refine ⟨Or.inl (manageForgotPassword_facts cfg sys.state).1, fun r hr => ?_⟩
      rcases List.mem_append.mp hr with hr | hr
      · exact Or.inl hr
      · exact Or.inr (Or.inr (Or.inr ((manageForgotPassword_facts cfg sys.state).2 r hr)))
    · cases h
  | clickResetPassword =>
    simp only [step] at h
    split at h
    · cases h
      refine ⟨Or.inl (handleResetPassword_facts cfg sys.state).1, fun r hr => ?_⟩
      rcases List.mem_append.mp hr with hr | hr
      · exact Or.inl hr
      · exact Or.inr (Or.inr (Or.inl ((handleResetPassword_facts cfg sys.state).2 r hr)))
    · cases h
  | settle i resp =>
    simp only [step] at h
    split at h
    · cases h
    · rename_i req hreq
      cases h
      have hpend : ∀ (e : List Effect), issued e = [] →
          ∀ r ∈ sys.pending.eraseIdx i ++ issued e, r ∈ sys.pending := by
        intro e he r hr
        rw [he, List.append_nil] at hr
        exact (List.eraseIdx_sublist _ _).subset hr
      cases req with
      | login a b c =>
        have hf := loginSettled_facts resp sys.state
        exact ⟨Or.inl hf.1, fun r hr => Or.inl (hpend _ hf.2 r hr)⟩
      | forgotPassword email =>
        have hf := manageForgotPasswordSettled_facts resp sys.state
        refine ⟨?_, fun r hr => Or.inl (hpend _ hf.2 r hr)⟩
        rcases hf.1 with h1 | ⟨h2, json, rfl⟩
        · exact Or.inl h1
        · exact Or.inr (Or.inr ⟨h2, i, json, email, rfl, hreq⟩)
      | resetPassword a b c d =>
        have hf := handleResetPasswordSettled_facts resp sys.state
        refine ⟨?_, fun r hr => Or.inl (hpend _ hf.2 r hr)⟩
        rcases hf.1 with h1 | h1
        · exact Or.inl h1
        · exact Or.inr (Or.inl h1)

theorem inv_initial : Inv initialSys := by
  refine ⟨Or.inl rfl, ?_⟩
  intro email h
  simp [initialSys] at h

theorem inv_step (cfg : Config) (sys : Sys) (ev : Event) (next : Sys)
    (hi : Inv sys) (h : step cfg sys ev = some next) : Inv next := by
  obtain ⟨hs, hp⟩ := step_facts cfg sys ev next h
  refine ⟨?_, ?_⟩
  · rcases hs with hs | hs | ⟨hs, -⟩
    · rw [hs]; exact hi.1
    · exact Or.inl hs
    · exact Or.inr hs
  · intro email hmem
    rcases hp _ hmem with h1 | ⟨a, b, c, h1⟩ | ⟨a, b, c, d, h1⟩ | ⟨h1, h2⟩
    · exact hi.2 email h1
    · cases h1
    · cases h1
    · cases h1; exact h2

theorem inv_run (cfg : Config) (evs : List Event) (sys last : Sys)
    (hi : Inv sys) (h : run cfg sys evs = some last) : Inv last := by
  induction evs generalizing sys with
  | nil => simp only [run] at h; cases h; exact hi
  | cons ev evs ih =>
    simp only [run] at h
    split at h
    · cases h
    · rename_i next hstep
      exact ih next (inv_step cfg sys ev next hi hstep) h

theorem step_one_to_two (cfg : Config) (sys : Sys) (ev : Event) (next : Sys)
    (hi : Inv sys) (h : step cfg sys ev = some next)
    (h1 : sys.state.resetStep = 1) (h2 : next.state.resetStep = 2) :
    ∃ i json email, ev = .settle i (.http true (.parsed json)) ∧
      sys.pending.get? i = some (.forgotPassword email) ∧
      ¬ Blank email ∧ validateEmail email = true := by
  obtain ⟨hs, -⟩ := step_facts cfg sys ev next h
  rcases hs with hs | hs | ⟨-, i, json, email, he, hp⟩
  · omega
  · omega
  · exact ⟨i, json, email, he, hp, hi.2 email (List.get?_mem hp)⟩

theorem run_reaches_two (cfg : Config) (evs : List Event) (sys last : Sys)
    (hi : Inv sys) (h : run cfg sys evs = some last)
    (h1 : sys.state.resetStep = 1) (h2 : last.state.resetStep = 2) :
    ∃ before i json after mid email,
      evs = before ++ .settle i (.http true (.parsed json)) :: after ∧
      run cfg sys before = some mid ∧ mid.state.resetStep = 1 ∧
      mid.pending.get? i = some (.forgotPassword email) ∧
      ¬ Blank email ∧ validateEmail email = true := by
  induction evs generalizing sys with
  | nil => simp only [run] at h; cases h; omega
  | cons ev evs ih =>
    simp only [run] at h
    split at h
    · cases h
    · rename_i next hstep
      have hn := inv_step cfg sys ev next hi hstep
      rcases hn.1 with hn1 | hn2
      · obtain ⟨before, i, json, after, mid, email, he, hr, hm, hp, hv⟩ := ih next hn h hn1
        refine ⟨ev :: before, i, json, after, mid, email, by rw [he]; rfl, ?_, hm, hp, hv⟩
        simp only [run, hstep]
        exact hr
      · obtain ⟨i, json, email, he, hp, hv⟩ := step_one_to_two cfg sys ev next hi hstep h1 hn2
        exact ⟨[], i, json, evs, sys, email, by rw [he]; rfl, rfl, h1, hp, hv⟩

/-- C9: in every state reachable from the initial state through the events of
the component, `resetStep` is 1 or 2. An event that takes `resetStep` from 1 to
2 in a reachable state is the settlement, with an HTTP-OK response, of a
forgot-password request in flight, and that request carries an email that
passed validation. Hence every run that ends with `resetStep = 2` contains such
a settlement, at a point where `resetStep` was 1. -/
theorem resetStep_reachable (cfg : Config) :
    (∀ sys, Reachable cfg sys → sys.state.resetStep = 1 ∨ sys.state.resetStep = 2) ∧
    (∀ sys ev next, Reachable cfg sys → step cfg sys ev = some next →
      sys.state.resetStep = 1 → next.state.resetStep = 2 →
      ∃ i json email, ev = .settle i (.http true (.parsed json)) ∧
        sys.pending.get? i = some (.forgotPassword email) ∧
        ¬ Blank email ∧ validateEmail email = true) ∧
    (∀ evs sys, run cfg initialSys evs = some sys → sys.state.resetStep = 2 →
      ∃ before i json after mid email,
        evs = before ++ .settle i (.http true (.parsed json)) :: after ∧
        run cfg initialSys before = some mid ∧ mid.state.resetStep = 1 ∧
        mid.pending.get? i = some (.forgotPassword email) ∧
        ¬ Blank email ∧ validateEmail email = true) := by
  refine ⟨?_, ?_, ?_⟩
  · rintro sys ⟨evs, h⟩
    exact (inv_run cfg evs initialSys sys inv_initial h).1
  · rintro sys ev next ⟨evs, h⟩ hstep h1 h2
    exact step_one_to_two cfg sys ev next (inv_run cfg evs initialSys sys inv_initial h)
      hstep h1 h2
  · intro evs sys h h2
    exact run_reaches_two cfg evs initialSys sys inv_initial h rfl h2

/-- Witness of C9: step 2 is reached by a run whose last event is the HTTP-OK
settlement of the forgot-password request for "missing@x.com". -/
theorem resetStep_reachable_witness :
    (∃ sys, run sampleConfig initialSys sampleForgotRun = some sys ∧
      sys.state.resetStep = 2 ∧ sys.state.showResetModal = true) ∧
    ∃ before i json after mid email,
      sampleForgotRun = before ++ .settle i (.http true (.parsed json)) :: after ∧
      run sampleConfig initialSys before = some mid ∧ mid.state.resetStep = 1 ∧
      mid.pending.get? i = some (.forgotPassword email) ∧
      ¬ Blank email ∧ validateEmail email = true :=
  ⟨⟨_, rfl, by decide, by decide⟩,
    (resetStep_reachable sampleConfig).2.2 sampleForgotRun
      { state :=
          { changeResetEmail "missing@x.com" (openResetModal initialState) with resetStep := 2 }
        pending := [] }
      (by decide) (by decide)⟩

/-! ## The login form after a submission -/

theorem login_datas (cfg : Config) (s : State) : (login cfg s).1.datas = s.datas := by
  unfold login
  split
  · rfl
  · split
    · rfl
    · split <;> rfl

theorem loginSettled_datas (resp : Response) (s : State) :
    (loginSettled resp s).1.datas = s.datas := by
  unfold loginSettled
  split
  · rfl
  · rfl
  · rfl
  · split <;> rfl

theorem manageForgotPassword_datas (cfg : Config) (s : State) :
    (manageForgotPassword cfg s).1.datas = s.datas := by
  unfold manageForgotPassword
  split
  · rfl
  · split <;> rfl

theorem handleResetPassword_datas (cfg : Config) (s : State) :
    (handleResetPassword cfg s).1.datas = s.datas := by
  unfold handleResetPassword
  simp only []
  split <;> rfl

theorem manageForgotPasswordSettled_datas (resp : Response) (s : State) :
    (manageForgotPasswordSettled resp s).1.datas = s.datas := by
  unfold manageForgotPasswordSettled
  cases h : manageForgotPasswordTry resp s with
  | error e => rfl
  | ok r =>
    unfold manageForgotPasswordTry at h
    split at h
    · cases h
    · cases h
    · split at h
      · cases h; rfl
      · split at h
        · cases h; rfl
        · cases h

theorem handleResetPasswordSettled_datas (resp : Response) (s : State) :
    (handleResetPasswordSettled resp s).1.datas = s.datas := by
  unfold handleResetPasswordSettled
  cases h : handleResetPasswordTry resp s with
  | error e => rfl
  | ok r =>
    unfold handleResetPasswordTry at h
    split at h
    · cases h
    · cases h
    · split at h
      · cases h; rfl
      · split at h
        · cases h; rfl
        · cases h

theorem loginRun_datas (cfg : Config) (s : State) (resp : Response) :
    (loginRun cfg s resp).1.datas = s.datas := by
  unfold loginRun
  simp only []
  split
  · exact login_datas cfg s
  · exact (loginSettled_datas resp _).trans (login_datas cfg s)

/-- Only the two inputs of the login form change `datas`. -/
theorem step_datas (cfg : Config) (sys : Sys) (ev : Event) (next : Sys)
    (h : step cfg sys ev = some next) (hne : next.state.datas ≠ sys.state.datas) :
    (∃ v, ev = .changeEmail v) ∨ (∃ v, ev = .changePassword v) := by
  cases ev with
  | changeEmail v => exact Or.inl ⟨v, rfl⟩
  | changePassword v => exact Or.inr ⟨v, rfl⟩
  | captchaCallback token =>
    simp only [step] at h
    split at h
    · cases h; exact absurd rfl hne
    · cases h
  | captchaExpired =>
    simp only [step] at h
    split at h
    · cases h; exact absurd rfl hne
    · cases h
  | captchaError =>
    simp only [step] at h
    split at h
    · cases h; exact absurd rfl hne
    · cases h
  | clickLogin => cases h; exact absurd (login_datas cfg sys.state) hne
  | clickForgot => cases h; exact absurd rfl hne
  | clickClose =>
    simp only [step] at h
    split at h
    · cases h; exact absurd rfl hne
    · cases h
  | changeResetEmail v =>
    simp only [step] at h
    split at h
    · cases h; exact absurd rfl hne
    · cases h
  | changeResetCode v =>
    simp only [step] at h
    split at h
    · cases h; exact absurd rfl hne
    · cases h
  | changeNewPassword v =>
    simp only [step] at h
    split at h
    · cases h; exact absurd rfl hne
    · cases h
  | changeConfirmPassword v =>
    simp only [step] at h
    split at h
    · cases h; exact absurd rfl hne
    · cases h
  | clickBack =>
    simp only [step] at h
    split at h
    · cases h; exact absurd rfl hne
    · cases h
  | clickSendResetCode =>
    simp only [step] at h
    split at h
    · cases h; exact absurd (manageForgotPassword_datas cfg sys.state) hne
    · cases h
  | clickResetPassword =>
    simp only [step] at h
    split at h
    · cases h; exact absurd (handleResetPassword_datas cfg sys.state) hne
    · cases h
  | settle i resp =>
    simp only [step] at h
    split at h
    · cases h
    · rename_i req hreq
      cases h
      cases req with
      | login a b c => exact absurd (loginSettled_datas resp sys.state) hne
      | forgotPassword email =>
        exact absurd (manageForgotPasswordSettled_datas resp sys.state) hne
      | resetPassword a b c d =>
        exact absurd (handleResetPasswordSettled_datas resp sys.state) hne

/-- C11 as stated fails: after a submission that the server rejects, the login
form still holds the email and the password that were submitted. No statement
of the component calls `setDatas` but the two `onChange` handlers (lines 244
and 253). -/
theorem login_keeps_datas :
    LoginReady sampleConfig sampleLoginState ∧
    ¬ ((loginRun sampleConfig sampleLoginState sampleRejection).1.datas.email = "" ∧
        (loginRun sampleConfig sampleLoginState sampleRejection).1.datas.password = "") ∧
    (loginRun sampleConfig sampleLoginState sampleRejection).1.datas =
      { email := "user@test.com", password := "hunter22" } := by
  decide

/-- C11, amended: a submission leaves the login form as it was: after `login`
returns, and after its request has settled with any outcome, email and password
have the values they had before the submission. In the runs of the component
only the `onChange` handlers of the two inputs change them. -/
theorem login_preserves_datas (cfg : Config) (s : State) :
    (login cfg s).1.datas = s.datas ∧
    (∀ resp, (loginSettled resp s).1.datas = s.datas) ∧
    (∀ resp, (loginRun cfg s resp).1.datas = s.datas) ∧
    (∀ sys ev next, step cfg sys ev = some next → next.state.datas ≠ sys.state.datas →
      (∃ v, ev = .changeEmail v) ∨ (∃ v, ev = .changePassword v)) :=
  ⟨login_datas cfg s, fun resp => loginSettled_datas resp s,
    fun resp => loginRun_datas cfg s resp, step_datas cfg⟩

/-- Witness of C11: the filled-in form is unchanged by a successful login and
by a submission with an empty password. -/
theorem login_preserves_datas_witness :
    (loginRun sampleConfig sampleLoginState
        (.http true (.parsed (.value (.string "abc") .undefined)))).1.datas =
      { email := "user@test.com", password := "hunter22" } ∧
    (login sampleConfig (changePassword "" sampleLoginState)).1.datas =
      { email := "user@test.com", password := "" } :=
  ⟨(login_preserves_datas sampleConfig sampleLoginState).2.2.1 _,
    (login_preserves_datas sampleConfig (changePassword "" sampleLoginState)).1⟩

/-! ## The reset flow while the modal is closed -/

theorem login_view (cfg : Config) (s : State) :
    (login cfg s).1.showResetModal = s.showResetModal ∧
    (login cfg s).1.resetStep = s.resetStep ∧
    (login cfg s).1.resetData = s.resetData ∧
    (login cfg s).1.resetErrors = s.resetErrors := by
  unfold login
  split
  · exact ⟨rfl, rfl, rfl, rfl⟩
  · split
    · exact ⟨rfl, rfl, rfl, rfl⟩
    · split <;> exact ⟨rfl, rfl, rfl, rfl⟩

theorem loginSettled_view (resp : Response) (s : State) :
    (loginSettled resp s).1.showResetModal = s.showResetModal ∧
    (loginSettled resp s).1.resetStep = s.resetStep ∧
    (loginSettled resp s).1.resetData = s.resetData ∧
    (loginSettled resp s).1.resetErrors = s.resetErrors := by
  unfold loginSettled
  split
  · exact ⟨rfl, rfl, rfl, rfl⟩
  · exact ⟨rfl, rfl, rfl, rfl⟩
  · exact ⟨rfl, rfl, rfl, rfl⟩
  · split <;> exact ⟨rfl, rfl, rfl, rfl⟩

theorem manageForgotPassword_show (cfg : Config) (s : State) :
    (manageForgotPassword cfg s).1.showResetModal = s.showResetModal := by
  unfold manageForgotPassword
  split
  · rfl
  · split <;> rfl

theorem handleResetPassword_show (cfg : Config) (s : State) :
    (handleResetPassword cfg s).1.showResetModal = s.showResetModal := by
  unfold handleResetPassword
  simp only []
  split <;> rfl

theorem manageForgotPasswordSettled_view (resp : Response) (s : State) :
    (manageForgotPasswordSettled resp s).1.showResetModal = s.showResetModal ∧
    (manageForgotPasswordSettled resp s).1.resetData = s.resetData := by
  unfold manageForgotPasswordSettled
  cases h : manageForgotPasswordTry resp s with
  | error e => exact ⟨rfl, rfl⟩
  | ok r =>
    unfold manageForgotPasswordTry at h
    split at h
    · cases h
    · cases h
    · split at h
      · cases h; exact ⟨rfl, rfl⟩
      · split at h
        · cases h; exact ⟨rfl, rfl⟩
        · cases h

theorem handleResetPasswordSettled_view (resp : Response) (s : State) :
    ((handleResetPasswordSettled resp s).1.showResetModal = false ∧
      ResetFlowClean (handleResetPasswordSettled resp s).1) ∨
    ((handleResetPasswordSettled resp s).1.showResetModal = s.showResetModal ∧
      (handleResetPasswordSettled resp s).1.resetData = s.resetData) := by
  unfold handleResetPasswordSettled
  cases h : handleResetPasswordTry resp s with
  | error e => exact Or.inr ⟨rfl, rfl⟩
  | ok r =>
    unfold handleResetPasswordTry at h
    split at h
    · cases h
    · cases h
    · split at h
      · cases h; exact Or.inl ⟨rfl, rfl, rfl, rfl⟩
      · split at h
        · cases h; exact Or.inr ⟨rfl, rfl⟩
        · cases h

theorem step_view (cfg : Config) (sys : Sys) (ev : Event) (next : Sys)
    (h : step cfg sys ev = some next) : ViewFacts sys ev next := by
  have same : ∀ st : State, st.showResetModal = sys.state.showResetModal →
      st.resetStep = sys.state.resetStep → st.resetData = sys.state.resetData →
      st.resetErrors = sys.state.resetErrors → ∀ p, ViewFacts sys ev { state := st, pending := p } :=
    fun st h1 h2 h3 h4 p => Or.inr (Or.inr (Or.inl ⟨h1, h2, h3, h4⟩))
  cases ev with
  | changeEmail v => cases h; exact same _ rfl rfl rfl rfl _
  | changePassword v => cases h; exact same _ rfl rfl rfl rfl _
  | captchaCallback token =>
    simp only [step] at h
    split at h
    · cases h; exact same _ rfl rfl rfl rfl _
    · cases h
  | captchaExpired =>
    simp only [step] at h
    split at h
    · cases h; exact same _ rfl rfl rfl rfl _
    · cases h
  | captchaError =>
    simp only [step] at h
    split at h
    · cases h; exact same _ rfl rfl rfl rfl _
    · cases h
  | clickLogin =>
    cases h
    obtain ⟨h1, h2, h3, h4⟩ := login_view cfg sys.state
    exact same _ h1 h2 h3 h4 _
  | clickForgot => cases h; exact Or.inl rfl
  | clickClose =>
    simp only [step] at h
    split at h
    · cases h; exact Or.inr (Or.inl ⟨rfl, rfl, rfl, rfl⟩)
    · cases h
  | changeResetEmail v =>
    simp only [step] at h
    split at h
    · rename_i hg; cases h; exact Or.inl hg.1
    · cases h
  | changeResetCode v =>
    simp only [step] at h
    split at h
    · rename_i hg; cases h; exact Or.inl hg.1
    · cases h
  | changeNewPassword v =>
    simp only [step] at h
    split at h
    · rename_i hg; cases h; exact Or.inl hg.1
    · cases h
  | changeConfirmPassword v =>
    simp only [step] at h
    split at h
    · rename_i hg; cases h; exact Or.inl hg.1
    · cases h
  | clickBack =>
    simp only [step] at h
    split at h
    · rename_i hg; cases h; exact Or.inl hg.1
    · cases h
  | clickSendResetCode =>
    simp only [step] at h
    split at h
    · rename_i hg
      cases h
      exact Or.inl ((manageForgotPassword_show cfg sys.state).trans hg.1)
    · cases h
  | clickResetPassword =>
    simp only [step] at h
    split at h
    · rename_i hg
      cases h
      exact Or.inl ((handleResetPassword_show cfg sys.state).trans hg.1)
    · cases h
  | settle i resp =>
    simp only [step] at h
    split at h
    · cases h
    · rename_i req hreq
      cases h
      cases req with
      | login a b c =>
        obtain ⟨h1, h2, h3, h4⟩ := loginSettled_view resp sys.state
        exact same _ h1 h2 h3 h4 _
      | forgotPassword email =>
        obtain ⟨h1, h2⟩ := manageForgotPasswordSettled_view resp sys.state
        by_cases ho : sys.state.showResetModal = true
        · exact Or.inl (h1.trans ho)
        · refine Or.inr (Or.inr (Or.inr ⟨?_, h1, h2⟩))
          have hb : sys.state.showResetModal = false := by simpa using ho
          simp only [settlesWhileClosed]
          rw [hreq, hb]
          rfl
      | resetPassword a b c d =>
        rcases handleResetPasswordSettled_view resp sys.state with hc | ⟨h1, h2⟩
        · exact Or.inr (Or.inl hc)
        · by_cases ho : sys.state.showResetModal = true
          · exact Or.inl (h1.trans ho)
          · refine Or.inr (Or.inr (Or.inr ⟨?_, h1, h2⟩))
            have hb : sys.state.showResetModal = false := by simpa using ho
            simp only [settlesWhileClosed]
            rw [hreq, hb]
            rfl

theorem closed_resetData_run (cfg : Config) (evs : List Event) (sys last : Sys)
    (hi : sys.state.showResetModal = false → sys.state.resetData = emptyResetData)
    (h : run cfg sys evs = some last) :
    last.state.showResetModal = false → last.state.resetData = emptyResetData := by
  induction evs generalizing sys with
  | nil => simp only [run] at h; cases h; exact hi
  | cons ev evs ih =>
    simp only [run] at h
    split at h
    · cases h
    · rename_i next hstep
      refine ih next ?_ h
      intro hc
      rcases step_view cfg sys ev next hstep with h1 | ⟨-, -, h2, -⟩ | ⟨h1, -, h3, -⟩ |
        ⟨-, h1, h3⟩
      · rw [hc] at h1; cases h1
      · exact h2
      · rw [h3]; exact hi (h1.symm.trans hc)
      · rw [h3]; exact hi (h1.symm.trans hc)

theorem closed_clean_run (cfg : Config) (evs : List Event) (sys last : Sys)
    (hi : sys.state.showResetModal = false → ResetFlowClean sys.state)
    (h : run cfg sys evs = some last) (hq : quiet cfg sys evs = true) :
    last.state.showResetModal = false → ResetFlowClean last.state := by
  induction evs generalizing sys with
  | nil => simp only [run] at h; cases h; exact hi
  | cons ev evs ih =>
    simp only [run] at h
    split at h
    · cases h
    · rename_i next hstep
      simp only [quiet, hstep, Bool.and_eq_true, Bool.not_eq_true'] at hq
      refine ih next ?_ h hq.2
      intro hc
      rcases step_view cfg sys ev next hstep with h1 | ⟨-, h2⟩ | ⟨h1, h2, h3, h4⟩ | ⟨h1, -, -⟩
      · rw [hc] at h1; cases h1
      · exact h2
      · obtain ⟨c1, c2, c3⟩ := hi (h1.symm.trans hc)
        exact ⟨h2.trans c1, h3.trans c2, h4.trans c3⟩
      · rw [hq.1] at h1; cases h1

/-- C12 as stated fails: when the modal is closed while the forgot-password
request is in flight, the HTTP-OK answer that arrives afterwards sets
`resetStep` to 2 (line 106) although the modal is closed; the next opening
shows step 2. The request is not cancelled by `closeResetModal` and its
continuation does not look at `showResetModal`. -/
theorem closed_modal_late_answer :
    run sampleConfig initialSys sampleLateRun =
      some { state := { initialState with resetStep := 2 }, pending := [] } ∧
    ({ initialState with resetStep := 2 } : State).showResetModal = false ∧
    ¬ ResetFlowClean { initialState with resetStep := 2 } ∧
    (openResetModal { initialState with resetStep := 2 }).resetStep = 2 := by
  decide

/-- C12, amended: in every reachable state in which the modal is closed the
four `resetData` fields are empty. When moreover no forgot-password or
reset-password request has settled while the modal was closed, `resetStep` is 1
and `resetErrors` is empty, so that opening the modal, which only sets
`showResetModal`, shows an empty step 1. -/
theorem closed_modal_state (cfg : Config) :
    (∀ sys, Reachable cfg sys → sys.state.showResetModal = false →
      sys.state.resetData = emptyResetData) ∧
    (∀ evs sys, run cfg initialSys evs = some sys → quiet cfg initialSys evs = true →
      sys.state.showResetModal = false →
      ResetFlowClean sys.state ∧ ResetFlowClean (openResetModal sys.state)) ∧
    (∀ s, openResetModal s = { s with showResetModal := true }) := by
  refine ⟨?_, ?_, fun _ => rfl⟩
  · rintro sys ⟨evs, h⟩
    exact closed_resetData_run cfg evs initialSys sys (fun _ => rfl) h
  · intro evs sys h hq hc
    have := closed_clean_run cfg evs initialSys sys (fun _ => ⟨rfl, rfl, rfl⟩) h hq hc
    exact ⟨this, this⟩

/-- Witness of C12: the answer arrives while the modal is open, the code is
typed, the modal is closed: the reset flow is back to an empty step 1. -/
theorem closed_modal_state_witness :
    run sampleConfig initialSys sampleQuietRun = some initialSys ∧
    quiet sampleConfig initialSys sampleQuietRun = true ∧
    ResetFlowClean initialSys.state ∧ ResetFlowClean (openResetModal initialSys.state) :=
  ⟨by decide, by decide,
    (closed_modal_state sampleConfig).2.1 sampleQuietRun initialSys (by decide) (by decide)
      rfl⟩

/-! ## The shape of a valid email -/

namespace Regex

theorem matches_star_cls (p : Nat → Bool) (us : List Nat) :
    Matches (star (cls p)) us ↔ ∀ u ∈ us, p u = true := by
  induction us with
  | nil => exact ⟨fun _ => by simp, fun _ => Matches.starNil⟩
  | cons u us ih =>
    rw [matches_star_cons]
    constructor
    · rintro ⟨xs, ys, rfl, hx, hy⟩
      rw [matches_cls_iff] at hx
      obtain ⟨v, hv, hp⟩ := hx
      obtain ⟨rfl, rfl⟩ := List.cons.inj hv
      intro w hw
      rcases List.mem_cons.mp hw with rfl | hw
      · exact hp
      · exact (ih.mp (by simpa using hy)) w (by simpa using hw)
    · intro h
      refine ⟨[], us, rfl, Matches.cls (h u (by simp)), ih.mpr ?_⟩
      intro w hw
      exact h w (by simp [hw])

theorem matches_plus_cls (p : Nat → Bool) (us : List Nat) :
    Matches (plus (cls p)) us ↔ us ≠ [] ∧ ∀ u ∈ us, p u = true := by
  unfold plus
  rw [matches_seq_iff]
  constructor
  · rintro ⟨xs, ys, rfl, hx, hy⟩
    rw [matches_cls_iff] at hx
    obtain ⟨v, rfl, hp⟩ := hx
    rw [matches_star_cls] at hy
    refine ⟨by simp, ?_⟩
    intro w hw
    rcases List.mem_cons.mp hw with rfl | hw
    · exact hp
    · exact hy w hw
  · rintro ⟨hne, h⟩
    cases us with
    | nil => exact absurd rfl hne
    | cons u us =>
      refine ⟨[u], us, rfl, Matches.cls (h u (by simp)), (matches_star_cls p us).mpr ?_⟩
      intro w hw
      exact h w (by simp [hw])

theorem matches_lit (c : Char) (us : List Nat) : Matches (lit c) us ↔ us = [c.toNat] := by
  unfold lit
  rw [matches_cls_iff]
  constructor
  · rintro ⟨u, rfl, hu⟩
    simp only [beq_iff_eq] at hu
    rw [hu]
  · rintro rfl
    exact ⟨c.toNat, rfl, by simp⟩

end Regex

/-- Code units that `[^\s@]` matches. -/
theorem notSpaceNorAt_matches_plus (us : List Nat) :
    Regex.Matches (.plus notSpaceNorAt) us ↔
      us ≠ [] ∧ ∀ u ∈ us, isWhiteSpaceUnit u = false ∧ u ≠ 64 := by
  unfold notSpaceNorAt
  rw [Regex.matches_plus_cls]
  have h64 : ('@'.toNat) = 64 := by decide
  simp only [h64, Bool.not_eq_true', Bool.or_eq_false_iff, beq_eq_false_iff_ne, ne_eq]

/-- The code-unit sequences that `emailRegex` matches. -/
theorem emailRegex_matches (us : List Nat) :
    Regex.Matches emailRegex us ↔
      ∃ a b c, us = a ++ 64 :: (b ++ 46 :: c) ∧
        (a ≠ [] ∧ ∀ u ∈ a, isWhiteSpaceUnit u = false ∧ u ≠ 64) ∧
        (b ≠ [] ∧ ∀ u ∈ b, isWhiteSpaceUnit u = false ∧ u ≠ 64) ∧
        (c ≠ [] ∧ ∀ u ∈ c, isWhiteSpaceUnit u = false ∧ u ≠ 64) := by
  have h64 : ('@'.toNat) = 64 := by decide
  have h46 : ('.'.toNat) = 46 := by decide
  unfold emailRegex
  simp only [Regex.matches_seq_iff, Regex.matches_lit, notSpaceNorAt_matches_plus, h64, h46]
  constructor
  · rintro ⟨a, r1, rfl, ha, x1, r2, rfl, rfl, b, r3, rfl, hb, x2, c, rfl, rfl, hc⟩
    exact ⟨a, b, c, by simp, ha, hb, hc⟩
  · rintro ⟨a, b, c, rfl, ha, hb, hc⟩
    exact ⟨a, _, rfl, ha, [64], _, rfl, rfl, b, _, rfl, hb, [46], c, rfl, rfl, hc⟩

theorem char_lt (c : Char) : c.toNat < 0x110000 := by
  have h := c.valid
  rcases h with h | ⟨-, h⟩
  · have : c.toNat < 0xD800 := h
    omega
  · exact h

theorem char_eq_of_toNat (c d : Char) (h : c.toNat = d.toNat) : c = d := by
  rw [← Char.ofNat_toNat c, ← Char.ofNat_toNat d, h]

theorem isWhiteSpaceUnit_of_ge (u : Nat) (h : 0xD800 ≤ u) (h2 : u ≠ 0xFEFF) :
    isWhiteSpaceUnit u = false := by
  unfold isWhiteSpaceUnit
  simp only [Bool.or_eq_false_iff, beq_eq_false_iff_ne, ne_eq, Bool.and_eq_false_iff,
    decide_eq_false_iff_not]
  refine ⟨⟨⟨⟨⟨⟨⟨⟨⟨⟨⟨⟨⟨⟨?_, ?_⟩, ?_⟩, ?_⟩, ?_⟩, ?_⟩, ?_⟩, ?_⟩, ?_⟩, ?_⟩, ?_⟩, ?_⟩, ?_⟩, ?_⟩, ?_⟩ <;>
    omega

/-- The code units of a code point avoid whitespace and `@` exactly when the
code point does. -/
theorem utf16Units_ok (c : Char) :
    (∀ u ∈ utf16Units c, isWhiteSpaceUnit u = false ∧ u ≠ 64) ↔
      (isWhiteSpace c = false ∧ c ≠ '@') := by
  have hlt := char_lt c
  have hat : c ≠ '@' ↔ c.toNat ≠ 64 := by
    constructor
    · intro h1 h2; exact h1 (char_eq_of_toNat c '@' h2)
    · rintro h1 rfl; exact h1 rfl
  unfold utf16Units isWhiteSpace
  by_cases h : c.toNat < 0x10000
  · simp only [h, if_true, List.mem_singleton, forall_eq, hat]
  · simp only [h, if_false, List.mem_cons, List.mem_singleton, forall_eq_or_imp, forall_eq,
      List.not_mem_nil, false_imp_iff, implies_true, and_true, hat]
    constructor
    · intro _
      exact ⟨isWhiteSpaceUnit_of_ge _ (by omega) (by omega), by omega⟩
    · intro _
      exact ⟨⟨isWhiteSpaceUnit_of_ge _ (by omega) (by omega), by omega⟩,
        isWhiteSpaceUnit_of_ge _ (by omega) (by omega), by omega⟩

theorem flatMap_units_ok (cs : List Char) :
    (∀ u ∈ cs.flatMap utf16Units, isWhiteSpaceUnit u = false ∧ u ≠ 64) ↔
      ∀ c ∈ cs, isWhiteSpace c = false ∧ c ≠ '@' := by
  induction cs with
  | nil => simp
  | cons c cs ih =>
    simp only [List.flatMap_cons, List.mem_append, List.mem_cons, forall_eq_or_imp]
    rw [← ih, ← utf16Units_ok]
    constructor
    · intro h; exact ⟨fun u hu => h u (Or.inl hu), fun u hu => h u (Or.inr hu)⟩
    · rintro ⟨h1, h2⟩ u (hu | hu)
      · exact h1 u hu
      · exact h2 u hu

theorem utf16Units_ne_nil (c : Char) : utf16Units c ≠ [] := by
  unfold utf16Units
  split <;> simp

theorem flatMap_units_eq_nil (cs : List Char) : cs.flatMap utf16Units = [] ↔ cs = [] := by
  cases cs with
  | nil => simp
  | cons c cs =>
    simp only [List.flatMap_cons, List.append_eq_nil, reduceCtorEq, iff_false, not_and]
    intro h
    exact absurd h (utf16Units_ne_nil c)

/-- A code unit below the surrogates is the code point at a character
boundary. -/
theorem flatMap_units_split (cs : List Char) (xs : List Nat) (u : Nat) (ys : List Nat)
    (hu : u < 0xD800) (h : cs.flatMap utf16Units = xs ++ u :: ys) :
    ∃ cs1 c cs2, cs = cs1 ++ c :: cs2 ∧ c.toNat = u ∧
      cs1.flatMap utf16Units = xs ∧ cs2.flatMap utf16Units = ys := by
  induction cs generalizing xs with
  | nil => simp at h
  | cons c0 cs ih =>
    rw [List.flatMap_cons] at h
    by_cases hc : c0.toNat < 0x10000
    · have h0 : utf16Units c0 = [c0.toNat] := by unfold utf16Units; rw [if_pos hc]
      rw [h0] at h
      cases xs with
      | nil =>
        simp only [List.singleton_append, List.nil_append, List.cons.injEq] at h
        exact ⟨[], c0, cs, rfl, h.1, rfl, h.2⟩
      | cons x xs =>
        simp only [List.singleton_append, List.cons_append, List.cons.injEq] at h
        obtain ⟨cs1, c, cs2, rfl, hcu, h1, h2⟩ := ih xs h.2
        refine ⟨c0 :: cs1, c, cs2, rfl, hcu, ?_, h2⟩
        rw [List.flatMap_cons, h0, h1, h.1]
        rfl
    · have h0 : utf16Units c0 =
          [0xD800 + (c0.toNat - 0x10000) / 0x400, 0xDC00 + (c0.toNat - 0x10000) % 0x400] := by
        unfold utf16Units; rw [if_neg hc]
      rw [h0] at h
      cases xs with
      | nil =>
        simp only [List.cons_append, List.nil_append, List.cons.injEq] at h
        omega
      | cons x xs =>
        cases xs with
        | nil =>
          simp only [List.cons_append, List.nil_append, List.cons.injEq] at h
          omega
        | cons y xs =>
          simp only [List.cons_append, List.nil_append, List.cons.injEq] at h
          obtain ⟨hx, hy, hrest⟩ := h
          obtain ⟨cs1, c, cs2, rfl, hcu, h1, h2⟩ := ih xs hrest
          refine ⟨c0 :: cs1, c, cs2, rfl, hcu, ?_, h2⟩
          rw [List.flatMap_cons, h0, h1, hx, hy]
          rfl

/-- The strings that `validateEmail` accepts, as sequences of code points. -/
theorem validateEmail_iff_parts (s : String) :
    validateEmail s = true ↔
      ∃ a b c, s.data = a ++ '@' :: (b ++ '.' :: c) ∧
        (a ≠ [] ∧ ∀ x ∈ a, isWhiteSpace x = false ∧ x ≠ '@') ∧
        (b ≠ [] ∧ ∀ x ∈ b, isWhiteSpace x = false ∧ x ≠ '@') ∧
        (c ≠ [] ∧ ∀ x ∈ c, isWhiteSpace x = false ∧ x ≠ '@') := by
  unfold validateEmail testAnchored toUTF16
  rw [Regex.matchAll_iff, emailRegex_matches]
  have hAt : utf16Units '@' = [64] := by decide
  have hDot : utf16Units '.' = [46] := by decide
  constructor
  · rintro ⟨a, b, c, h, ⟨ha, ha2⟩, ⟨hb, hb2⟩, ⟨hc, hc2⟩⟩
    obtain ⟨cs1, c1, rest, hs, hc1, h1, h2⟩ :=
      flatMap_units_split s.data a 64 (b ++ 46 :: c) (by omega) h
    obtain ⟨cs2, c2, cs3, hrest, hc2', h3, h4⟩ :=
      flatMap_units_split rest b 46 c (by omega) h2
    have e1 : c1 = '@' := char_eq_of_toNat c1 '@' hc1
    have e2 : c2 = '.' := char_eq_of_toNat c2 '.' hc2'
    subst e1 e2 h1 h3 h4
    refine ⟨cs1, cs2, cs3, by rw [hs, hrest], ⟨?_, (flatMap_units_ok cs1).mp ha2⟩,
      ⟨?_, (flatMap_units_ok cs2).mp hb2⟩, ⟨?_, (flatMap_units_ok cs3).mp hc2⟩⟩
    · exact fun h0 => ha ((flatMap_units_eq_nil cs1).mpr h0)
    · exact fun h0 => hb ((flatMap_units_eq_nil cs2).mpr h0)
    · exact fun h0 => hc ((flatMap_units_eq_nil cs3).mpr h0)
  · rintro ⟨a, b, c, hs, ⟨ha, ha2⟩, ⟨hb, hb2⟩, ⟨hc, hc2⟩⟩
    refine ⟨a.flatMap utf16Units, b.flatMap utf16Units, c.flatMap utf16Units, ?_,
      ⟨?_, (flatMap_units_ok a).mpr ha2⟩, ⟨?_, (flatMap_units_ok b).mpr hb2⟩,
      ⟨?_, (flatMap_units_ok c).mpr hc2⟩⟩
    · rw [hs]
      simp only [List.flatMap_append, List.flatMap_cons, hAt, hDot, List.singleton_append]
    · exact fun h0 => ha ((flatMap_units_eq_nil a).mp h0)
    · exact fun h0 => hb ((flatMap_units_eq_nil b).mp h0)
    · exact fun h0 => hc ((flatMap_units_eq_nil c).mp h0)

theorem count_at_eq_zero (l : List Char) : l.count '@' = 0 ↔ ∀ x ∈ l, x ≠ '@' := by
  rw [List.count_eq_zero]
  constructor
  · intro h x hx hxe; exact h (hxe ▸ hx)
  · intro h hmem; exact h _ hmem rfl

/-- The three parts of an accepted email are the shape of the specification. -/
theorem parts_iff_emailShape (s : String) :
    (∃ a b c, s.data = a ++ '@' :: (b ++ '.' :: c) ∧
        (a ≠ [] ∧ ∀ x ∈ a, isWhiteSpace x = false ∧ x ≠ '@') ∧
        (b ≠ [] ∧ ∀ x ∈ b, isWhiteSpace x = false ∧ x ≠ '@') ∧
        (c ≠ [] ∧ ∀ x ∈ c, isWhiteSpace x = false ∧ x ≠ '@')) ↔ EmailShape s := by
  have wAt : isWhiteSpace '@' = false := by decide
  have wDot : isWhiteSpace '.' = false := by decide
  have dotAt : ('.' : Char) ≠ '@' := by decide
  unfold EmailShape
  constructor
  · rintro ⟨a, b, c, hs, ⟨ha, ha2⟩, ⟨hb, hb2⟩, ⟨hc, hc2⟩⟩
    refine ⟨?_, ?_, a, b ++ '.' :: c, hs, ha, b, c, rfl, hb, hc⟩
    · intro x hx
      rw [hs] at hx
      simp only [List.mem_append, List.mem_cons] at hx
      rcases hx with hx | rfl | hx | rfl | hx
      · exact (ha2 x hx).1
      · exact wAt
      · exact (hb2 x hx).1
      · exact wDot
      · exact (hc2 x hx).1
    · rw [hs]
      simp only [List.count_append, List.count_cons]
      rw [(count_at_eq_zero a).mpr (fun x hx => (ha2 x hx).2),
        (count_at_eq_zero b).mpr (fun x hx => (hb2 x hx).2),
        (count_at_eq_zero c).mpr (fun x hx => (hc2 x hx).2)]
      simp [dotAt]
  · rintro ⟨hw, hcount, a, d, hs, ha, b, c, rfl, hb, hc⟩
    rw [hs] at hcount hw
    simp only [List.count_append, List.count_cons, beq_self_eq_true, if_true] at hcount
    have hza : a.count '@' = 0 := by omega
    have hzb : b.count '@' = 0 := by omega
    have hzc : c.count '@' = 0 := by omega
    refine ⟨a, b, c, hs, ⟨ha, fun x hx => ⟨hw x (by simp [hx]), (count_at_eq_zero a).mp hza x hx⟩⟩,
      ⟨hb, fun x hx => ⟨hw x (by simp [hx]), (count_at_eq_zero b).mp hzb x hx⟩⟩,
      ⟨hc, fun x hx => ⟨hw x (by simp [hx]), (count_at_eq_zero c).mp hzc x hx⟩⟩⟩

theorem dropWhile_of_none (p : Char → Bool) (l : List Char) (h : ∀ x ∈ l, p x = false) :
    l.dropWhile p = l := by
  cases l with
  | nil => rfl
  | cons x l => exact List.dropWhile_cons_of_neg (by simp [h x (by simp)])

/-- A string without whitespace is its own trimmed form. -/
theorem trim_of_no_whiteSpace (s : String) (h : ∀ c ∈ s.data, isWhiteSpace c = false) :
    trim s = s := by
  unfold trim
  rw [dropWhile_of_none _ _ h,
    dropWhile_of_none _ _ (fun x hx => h x (List.mem_reverse.mp hx)), List.reverse_reverse]

/-- C13: `validateEmail` is a total Boolean function of its argument that is
true exactly on the strings of the `local@domain.tld` shape: no whitespace
character, exactly one `@`, at least one character before it, and after it a
`.` that is neither the first nor the last character. Consequently every email
that `manageForgotPassword` sends, and every email carried by a forgot-password
request in flight in a reachable state, equals its own trimmed form. -/
theorem validateEmail_shape :
    (∀ s, validateEmail s = true ↔ EmailShape s) ∧
    (∀ s, validateEmail s = true → trim s = s) ∧
    (∀ cfg st, ∀ r ∈ issued (manageForgotPassword cfg st).2,
      r = .forgotPassword st.resetData.email ∧
        trim st.resetData.email = st.resetData.email) ∧
    (∀ cfg sys email, Reachable cfg sys → .forgotPassword email ∈ sys.pending →
      trim email = email) := by
  have shape : ∀ s, validateEmail s = true ↔ EmailShape s := fun s =>
    (validateEmail_iff_parts s).trans (parts_iff_emailShape s)
  have trimmed : ∀ s, validateEmail s = true → trim s = s := fun s h =>
    trim_of_no_whiteSpace s ((shape s).mp h).1
  refine ⟨shape, trimmed, ?_, ?_⟩
  · intro cfg st r hr
    obtain ⟨h1, h2⟩ := (manageForgotPassword_facts cfg st).2 r hr
    exact ⟨h1, trimmed _ h2.2⟩
  · rintro cfg sys email ⟨evs, h⟩ hmem
    exact trimmed email ((inv_run cfg evs initialSys sys inv_initial h).2 email hmem).2

/-- Witness of C13: "user@test.com" has the shape, "user@test" (no dot after
the `@`) and "a@b@c.d" (two `@`) do not, and the email sent from the sample
state is trimmed. -/
theorem validateEmail_shape_witness :
    EmailShape "user@test.com" ∧ ¬ EmailShape "user@test" ∧ ¬ EmailShape "a@b@c.d" ∧
    trim "missing@x.com" = "missing@x.com" :=
  ⟨(validateEmail_shape.1 "user@test.com").mp (by decide),
    fun h => absurd ((validateEmail_shape.1 "user@test").mpr h) (by decide),
    fun h => absurd ((validateEmail_shape.1 "a@b@c.d").mpr h) (by decide),
    validateEmail_shape.2.1 "missing@x.com" (by decide)⟩

end Login
